import Mathlib

/-!
# BSG: the decay-rate evaluation engine

A shallow embedding of `bsg::Generator` (src/source/bsg/src/Generator.cc, the
current variant) and of the older `Generator` (src/trunk/src/Generator.cpp, the
legacy variant).

* `double` is embedded as `ℚ`: the arithmetic is exact. Only `GetMatrixElements`, which
  tests for NaN, is embedded over `Dbl`: a finite value, a signed infinity or NaN.
* The functions of `SpectralFunctions.h`, the constants of `Constants.h` and
  `std::log10` are not part of the sources at hand; they are parameters of the
  embedding. `utilities::Simpson` is not part of them either: its failure on short
  input follows the specification, its numeric rule is a parameter.
* A `while` loop is embedded with a fuel argument; a result `none` means that the
  fuel ran out.
* The option container read by `GetBSGOpt` / `BSGOptExists` is the record
  `Options`; the logger calls are not embedded.
-/

namespace BSG

/-- The enum `BetaType` of Constants.h. -/
inductive BetaType where
  | BETA_MINUS
  | BETA_PLUS
  deriving DecidableEq, Repr

/-- The enum `DecayType` of Constants.h. -/
inductive DecayType where
  | FERMI
  | GAMOW_TELLER
  | MIXED
  deriving DecidableEq, Repr

/-- The function `std::max(a, b)`: `(a < b) ? b : a`. -/
def stdMax (a b : ℚ) : ℚ := if a < b then b else a

/-- The spectral functions `SF::...` called by `bsg::Generator::CalculateDecayRate`,
with the argument lists of the calls. `SPS` is the type of the single-particle
states handed to the connected `CCorrection`. -/
structure SpectralFunctions (SPS : Type) where
  PhaseSpace : ℚ → ℚ → ℤ → ℤ → ℚ
  FermiFunction : ℚ → ℤ → ℚ → BetaType → ℚ
  CCorrectionConnect : ℚ → ℚ → ℤ → ℤ → ℚ → BetaType → DecayType → ℚ → ℚ → ℚ → ℚ → ℚ → ℚ →
    Bool → String → ℚ → SPS → SPS → ℚ
  CCorrection : ℚ → ℚ → ℤ → ℤ → ℚ → BetaType → DecayType → ℚ → ℚ → ℚ → ℚ → ℚ → ℚ →
    Bool → String → ℚ → ℚ
  RelativisticCorrection : ℚ → ℚ → ℤ → ℤ → ℚ → BetaType → DecayType → ℚ
  DeformationCorrection : ℚ → ℚ → ℤ → ℚ → ℚ → BetaType → List ℚ → List ℚ → ℚ
  L0Correction : ℚ → ℤ → ℚ → BetaType → List ℚ → List ℚ → ℚ
  UCorrection : ℚ → ℤ → ℚ → BetaType → String → List ℚ → List ℚ → ℚ
  QCorrection : ℚ → ℚ → ℤ → ℤ → BetaType → DecayType → ℚ → ℚ
  RadiativeCorrection : ℚ → ℚ → ℤ → ℚ → BetaType → ℚ → ℚ → ℚ
  NeutrinoRadiativeCorrection : ℚ → ℚ
  RecoilCorrection : ℚ → ℚ → ℤ → DecayType → ℚ → ℚ
  AtomicScreeningCorrection : ℚ → ℤ → BetaType → ℚ
  AtomicExchangeCorrection : ℚ → List ℚ → ℚ
  AtomicMismatchCorrection : ℚ → ℚ → ℤ → ℤ → BetaType → ℚ

/-- The options read by `CalculateDecayRate` and `CalculateSpectrum`. `connect`
is `BSGOptExists(connect)`; `Steps` is `none` when `Spectrum.Steps` does not exist. -/
structure Options where
  Phasespace : Bool
  Fermi : Bool
  C : Bool
  connect : Bool
  Isovector : Bool
  Relativistic : Bool
  ESDeformation : Bool
  ESFiniteSize : Bool
  U : Bool
  CoulombRecoil : Bool
  Radiative : Bool
  Recoil : Bool
  Screening : Bool
  Exchange : Bool
  AtomicMismatch : Bool
  Begin : ℚ
  End : ℚ
  StepSize : ℚ
  Steps : Option ℤ

/-- The data members of `bsg::Generator` that the embedded functions read or write. -/
structure Generator (SPS : Type) where
  Z : ℤ
  A : ℤ
  R : ℚ
  motherSpinParity : ℤ
  daughterSpinParity : ℤ
  daughterBeta2 : ℚ
  betaType : BetaType
  decayType : DecayType
  mixingRatio : ℚ
  gA : ℚ
  gP : ℚ
  gM : ℚ
  W0 : ℚ
  atomicEnergyDeficit : ℚ
  fc1 : ℚ
  fb : ℚ
  fd : ℚ
  ratioM121 : ℚ
  hoFit : ℚ
  ESShape : String
  NSShape : String
  vOld : List ℚ
  vNew : List ℚ
  exPars : List ℚ
  aPos : List ℚ
  aNeg : List ℚ
  spsi : SPS
  spsf : SPS
  spectrum : List (List ℚ)

variable {SPS : Type}

/-- The function `bsg::Generator::CalculateDecayRate` (Generator.cc 391-502). The pair
`r` is `(result, neutrinoResult)`; every `if` block of the source is one `let`. -/
def CalculateDecayRate (sf : SpectralFunctions SPS) (o : Options) (g : Generator SPS)
    (W : ℚ) : ℚ × ℚ :=
  let r : ℚ × ℚ := (1, 1)
  let Wv : ℚ := g.W0 - W + 1
  let r := if o.Phasespace then
      (r.1 * sf.PhaseSpace W g.W0 g.motherSpinParity g.daughterSpinParity,
       r.2 * sf.PhaseSpace Wv g.W0 g.motherSpinParity g.daughterSpinParity)
    else r
  let r := if o.Fermi then
      (r.1 * sf.FermiFunction W g.Z g.R g.betaType,
       r.2 * sf.FermiFunction Wv g.Z g.R g.betaType)
    else r
  let r := if o.C then
      (if o.connect then
        (r.1 * sf.CCorrectionConnect W g.W0 g.Z g.A g.R g.betaType g.decayType g.gA g.gP
            g.fc1 g.fb g.fd g.ratioM121 o.Isovector g.NSShape g.hoFit g.spsi g.spsf,
         r.2 * sf.CCorrectionConnect Wv g.W0 g.Z g.A g.R g.betaType g.decayType g.gA g.gP
            g.fc1 g.fb g.fd g.ratioM121 o.Isovector g.NSShape g.hoFit g.spsi g.spsf)
      else
        (r.1 * sf.CCorrection W g.W0 g.Z g.A g.R g.betaType g.decayType g.gA g.gP
            g.fc1 g.fb g.fd g.ratioM121 o.Isovector g.NSShape g.hoFit,
         r.2 * sf.CCorrection Wv g.W0 g.Z g.A g.R g.betaType g.decayType g.gA g.gP
            g.fc1 g.fb g.fd g.ratioM121 o.Isovector g.NSShape g.hoFit))
    else r
  let r := if o.Relativistic then
      (r.1 * sf.RelativisticCorrection W g.W0 g.Z g.A g.R g.betaType g.decayType,
       r.2 * sf.RelativisticCorrection Wv g.W0 g.Z g.A g.R g.betaType g.decayType)
    else r
  let r := if o.ESDeformation then
      (r.1 * sf.DeformationCorrection W g.W0 g.Z g.R g.daughterBeta2 g.betaType g.aPos g.aNeg,
       r.2 * sf.DeformationCorrection Wv g.W0 g.Z g.R g.daughterBeta2 g.betaType g.aPos g.aNeg)
    else r
  let r := if o.ESFiniteSize then
      (r.1 * sf.L0Correction W g.Z g.R g.betaType g.aPos g.aNeg,
       r.2 * sf.L0Correction Wv g.Z g.R g.betaType g.aPos g.aNeg)
    else r
  let r := if o.U then
      (r.1 * sf.UCorrection W g.Z g.R g.betaType g.ESShape g.vOld g.vNew,
       r.2 * sf.UCorrection Wv g.Z g.R g.betaType g.ESShape g.vOld g.vNew)
    else r
  let r := if o.CoulombRecoil then
      (r.1 * sf.QCorrection W g.W0 g.Z g.A g.betaType g.decayType g.mixingRatio,
       r.2 * sf.QCorrection Wv g.W0 g.Z g.A g.betaType g.decayType g.mixingRatio)
    else r
  let r := if o.Radiative then
      (r.1 * sf.RadiativeCorrection W g.W0 g.Z g.R g.betaType g.gA g.gM,
       r.2 * sf.NeutrinoRadiativeCorrection Wv)
    else r
  let r := if o.Recoil then
      (r.1 * sf.RecoilCorrection W g.W0 g.A g.decayType g.mixingRatio,
       r.2 * sf.RecoilCorrection Wv g.W0 g.A g.decayType g.mixingRatio)
    else r
  let r := if o.Screening then
      (r.1 * sf.AtomicScreeningCorrection W g.Z g.betaType,
       r.2 * sf.AtomicScreeningCorrection Wv g.Z g.betaType)
    else r
  let r := if o.Exchange then
      (if g.betaType = BetaType.BETA_MINUS then
        (r.1 * sf.AtomicExchangeCorrection W g.exPars,
         r.2 * sf.AtomicExchangeCorrection Wv g.exPars)
      else r)
    else r
  let r := if o.AtomicMismatch then
      (if g.atomicEnergyDeficit = 0 then
        (r.1 * sf.AtomicMismatchCorrection W g.W0 g.Z g.A g.betaType,
         r.2 * sf.AtomicMismatchCorrection Wv g.W0 g.Z g.A g.betaType)
      else r)
    else r
  (stdMax 0 r.1, stdMax 0 r.2)

/-- The ordered product of a list of factors: left to right, starting from 1. -/
def orderedProduct (fs : List ℚ) : ℚ := fs.foldl (fun acc f => acc * f) 1

/-- The enabled factors of the electron branch, in the order of the specification, each
evaluated at `W`. -/
def electronFactors (sf : SpectralFunctions SPS) (o : Options) (g : Generator SPS)
    (W : ℚ) : List ℚ :=
  (if o.Phasespace then [sf.PhaseSpace W g.W0 g.motherSpinParity g.daughterSpinParity] else [])
  ++ (if o.Fermi then [sf.FermiFunction W g.Z g.R g.betaType] else [])
  ++ (if o.C then
        [if o.connect then
          sf.CCorrectionConnect W g.W0 g.Z g.A g.R g.betaType g.decayType g.gA g.gP
            g.fc1 g.fb g.fd g.ratioM121 o.Isovector g.NSShape g.hoFit g.spsi g.spsf
        else
          sf.CCorrection W g.W0 g.Z g.A g.R g.betaType g.decayType g.gA g.gP
            g.fc1 g.fb g.fd g.ratioM121 o.Isovector g.NSShape g.hoFit]
      else [])
  ++ (if o.Relativistic then
        [sf.RelativisticCorrection W g.W0 g.Z g.A g.R g.betaType g.decayType] else [])
  ++ (if o.ESDeformation then
        [sf.DeformationCorrection W g.W0 g.Z g.R g.daughterBeta2 g.betaType g.aPos g.aNeg]
      else [])
  ++ (if o.ESFiniteSize then [sf.L0Correction W g.Z g.R g.betaType g.aPos g.aNeg] else [])
  ++ (if o.U then [sf.UCorrection W g.Z g.R g.betaType g.ESShape g.vOld g.vNew] else [])
  ++ (if o.CoulombRecoil then
        [sf.QCorrection W g.W0 g.Z g.A g.betaType g.decayType g.mixingRatio] else [])
  ++ (if o.Radiative then [sf.RadiativeCorrection W g.W0 g.Z g.R g.betaType g.gA g.gM] else [])
  ++ (if o.Recoil then [sf.RecoilCorrection W g.W0 g.A g.decayType g.mixingRatio] else [])
  ++ (if o.Screening then [sf.AtomicScreeningCorrection W g.Z g.betaType] else [])
  ++ (if o.Exchange ∧ g.betaType = BetaType.BETA_MINUS then
        [sf.AtomicExchangeCorrection W g.exPars] else [])
  ++ (if o.AtomicMismatch ∧ g.atomicEnergyDeficit = 0 then
        [sf.AtomicMismatchCorrection W g.W0 g.Z g.A g.betaType] else [])

/-- The enabled factors of the neutrino branch, in the order of the specification, each
evaluated at `Wv`; the radiative slot holds `NeutrinoRadiativeCorrection`. -/
def neutrinoFactors (sf : SpectralFunctions SPS) (o : Options) (g : Generator SPS)
    (Wv : ℚ) : List ℚ :=
  (if o.Phasespace then [sf.PhaseSpace Wv g.W0 g.motherSpinParity g.daughterSpinParity] else [])
  ++ (if o.Fermi then [sf.FermiFunction Wv g.Z g.R g.betaType] else [])
  ++ (if o.C then
        [if o.connect then
          sf.CCorrectionConnect Wv g.W0 g.Z g.A g.R g.betaType g.decayType g.gA g.gP
            g.fc1 g.fb g.fd g.ratioM121 o.Isovector g.NSShape g.hoFit g.spsi g.spsf
        else
          sf.CCorrection Wv g.W0 g.Z g.A g.R g.betaType g.decayType g.gA g.gP
            g.fc1 g.fb g.fd g.ratioM121 o.Isovector g.NSShape g.hoFit]
      else [])
  ++ (if o.Relativistic then
        [sf.RelativisticCorrection Wv g.W0 g.Z g.A g.R g.betaType g.decayType] else [])
  ++ (if o.ESDeformation then
        [sf.DeformationCorrection Wv g.W0 g.Z g.R g.daughterBeta2 g.betaType g.aPos g.aNeg]
      else [])
  ++ (if o.ESFiniteSize then [sf.L0Correction Wv g.Z g.R g.betaType g.aPos g.aNeg] else [])
  ++ (if o.U then [sf.UCorrection Wv g.Z g.R g.betaType g.ESShape g.vOld g.vNew] else [])
  ++ (if o.CoulombRecoil then
        [sf.QCorrection Wv g.W0 g.Z g.A g.betaType g.decayType g.mixingRatio] else [])
  ++ (if o.Radiative then [sf.NeutrinoRadiativeCorrection Wv] else [])
  ++ (if o.Recoil then [sf.RecoilCorrection Wv g.W0 g.A g.decayType g.mixingRatio] else [])
  ++ (if o.Screening then [sf.AtomicScreeningCorrection Wv g.Z g.betaType] else [])
  ++ (if o.Exchange ∧ g.betaType = BetaType.BETA_MINUS then
        [sf.AtomicExchangeCorrection Wv g.exPars] else [])
  ++ (if o.AtomicMismatch ∧ g.atomicEnergyDeficit = 0 then
        [sf.AtomicMismatchCorrection Wv g.W0 g.Z g.A g.betaType] else [])

/-- Every correction toggle is disabled except `Spectrum.Phasespace`. -/
def OnlyPhasespace (o : Options) : Prop :=
  o.Phasespace = true ∧ o.Fermi = false ∧ o.C = false ∧ o.Relativistic = false ∧
  o.ESDeformation = false ∧ o.ESFiniteSize = false ∧ o.U = false ∧
  o.CoulombRecoil = false ∧ o.Radiative = false ∧ o.Recoil = false ∧
  o.Screening = false ∧ o.Exchange = false ∧ o.AtomicMismatch = false

/-- The constants of Constants.h that the embedded functions use. -/
structure Constants where
  ELECTRON_MASS_KEV : ℚ
  NUCLEON_MASS_KEV : ℚ

/-- The `while (currentW <= endW)` loop of `CalculateSpectrum` (Generator.cc 522-528,
Generator.cpp 379-385). `fuel` bounds the number of times the loop condition is
evaluated; `none` means that the fuel ran out before the loop ended. -/
def spectrumLoop (rate : ℚ → ℚ × ℚ) (endW stepW : ℚ) :
    ℕ → ℚ → List (List ℚ) → Option (List (List ℚ))
  | 0, _, _ => none
  | fuel + 1, currentW, spectrum =>
    if currentW ≤ endW then
      let result := rate currentW
      let entry : List ℚ := [currentW, result.1, result.2]
      spectrumLoop rate endW stepW fuel (currentW + stepW) (spectrum ++ [entry])
    else some spectrum

/-- The local `beginW` of `CalculateSpectrum`. -/
def beginW (c : Constants) (o : Options) : ℚ := o.Begin / c.ELECTRON_MASS_KEV + 1

/-- The local `endW` of `CalculateSpectrum`. -/
def endW (c : Constants) (o : Options) (g : Generator SPS) : ℚ :=
  if o.End = 0 then g.W0 else o.End / c.ELECTRON_MASS_KEV + 1

/-- The local `stepW` of `CalculateSpectrum`. -/
def stepW (c : Constants) (o : Options) (g : Generator SPS) : ℚ :=
  match o.Steps with
  | some n => (endW c o g - beginW c o) / (n : ℚ)
  | none => o.StepSize / c.ELECTRON_MASS_KEV

/-- The function `bsg::Generator::CalculateSpectrum` (Generator.cc 504-535): the member
`spectrum` is a new vector filled by the grid loop; the function returns a pointer to it.
The report written by `PrepareOutputFile` is not embedded. -/
def CalculateSpectrum (sf : SpectralFunctions SPS) (c : Constants) (o : Options)
    (g : Generator SPS) (fuel : ℕ) : Option (Generator SPS) :=
  (spectrumLoop (CalculateDecayRate sf o g) (endW c o g) (stepW c o g) fuel (beginW c o) []).map
    (fun s => { g with spectrum := s })

/-- The error of the analytics operations. -/
inductive SpectrumError where
  | EmptySpectrum
  deriving DecidableEq, Repr

/-- Modelled from the spec: `utilities::Simpson` of Utilities.h, which is not among the
sources. It fails with `EmptySpectrum` if the sequence has fewer than 3 samples, and
otherwise returns the composite Simpson integral of the value column over the W grid;
the numeric rule is the parameter `rule`. -/
def Simpson (rule : List (List ℚ) → ℚ) (values : List (List ℚ)) : Except SpectrumError ℚ :=
  if values.length < 3 then Except.error SpectrumError.EmptySpectrum
  else Except.ok (rule values)

/-- The function `bsg::Generator::CalculateLogFtValue` (Generator.cc 537-545); `log10` is
`std::log10`. -/
def CalculateLogFtValue (rule : List (List ℚ) → ℚ) (log10 : ℚ → ℚ) (g : Generator SPS)
    (partialHalflife : ℚ) : Except SpectrumError ℚ := do
  let f ← Simpson rule g.spectrum
  let ft := f * partialHalflife
  let logFt := log10 ft
  return logFt

/-- The vector `weightedSpectrum` built by the loop of `CalculateMeanEnergy`. -/
def weightedSpectrum (spectrum : List (List ℚ)) : List (List ℚ) :=
  spectrum.map (fun e => [e.getD 0 0, e.getD 0 0 * e.getD 1 0])

/-- The function `bsg::Generator::CalculateMeanEnergy` (Generator.cc 547-558). -/
def CalculateMeanEnergy (rule : List (List ℚ) → ℚ) (g : Generator SPS) :
    Except SpectrumError ℚ := do
  let weightedF ← Simpson rule (weightedSpectrum g.spectrum)
  let f ← Simpson rule g.spectrum
  return weightedF / f

/-- The mean energy that `PrepareOutputFile` reports (Generator.cc 590):
`(CalculateMeanEnergy()-1.)*ELECTRON_MASS_KEV`. -/
def reportedMeanEnergy (c : Constants) (rule : List (List ℚ) → ℚ) (g : Generator SPS) :
    Except SpectrumError ℚ := do
  let m ← CalculateMeanEnergy rule g
  return (m - 1) * c.ELECTRON_MASS_KEV

/-- The mean energy in keV in the words of the specification: the ratio of
Integrate(W·rate) to Integrate(rate), converted by (W−1)·ELECTRON_MASS_KEV. -/
def meanEnergyKeV (c : Constants) (rule : List (List ℚ) → ℚ) (spectrum : List (List ℚ)) :
    Except SpectrumError ℚ := do
  let weighted ← Simpson rule (spectrum.map (fun e => [e.getD 0 0, e.getD 0 0 * e.getD 1 0]))
  let plain ← Simpson rule spectrum
  return (weighted / plain - 1) * c.ELECTRON_MASS_KEV

/-- The samples of a grid that starts at `w`, has `n` points and the step `stepW`: each
sample is the W value with the pair that `rate` returns there. -/
def gridSamples (rate : ℚ → ℚ × ℚ) (stepW : ℚ) : ℚ → ℕ → List (List ℚ)
  | _, 0 => []
  | w, n + 1 => [w, (rate w).1, (rate w).2] :: gridSamples rate stepW (w + stepW) n

/-- The number of grid points `w, w + stepW, ...` that are at most `endW`. -/
def gridCount (endW stepW w : ℚ) : ℕ := (⌊(endW - w) / stepW⌋ + 1).toNat

/-- The W column of a spectrum. -/
def wColumn (s : List (List ℚ)) : List ℚ := s.map (fun e => e.getD 0 0)

/-- The grid property of a sample sequence: the first sample is at `beginW`, each next
sample is one `stepW` further, the W column is strictly ascending, and every sample lies
in `[beginW, endW]` and carries the pair that `rate` returns at its W. -/
def IsGrid (rate : ℚ → ℚ × ℚ) (beginW endW stepW : ℚ) (s : List (List ℚ)) : Prop :=
  (∀ e, s.head? = some e → e.head? = some beginW) ∧
  (∀ i, i + 1 < s.length → (wColumn s).getD (i + 1) 0 = (wColumn s).getD i 0 + stepW) ∧
  List.Pairwise (fun a b => a < b) (wColumn s) ∧
  (∀ e ∈ s, ∃ W, beginW ≤ W ∧ W ≤ endW ∧ e = [W, (rate W).1, (rate W).2])

/-- Simpson's rule on three samples, `(x2 - x0) / 6 * (y0 + 4 y1 + y2)`: a numeric rule
for the closed instances. -/
def threePointRule (values : List (List ℚ)) : ℚ :=
  match values with
  | [a, b, c] => (c.getD 0 0 - a.getD 0 0) / 6 * (a.getD 1 0 + 4 * b.getD 1 0 + c.getD 1 0)
  | _ => 0

/-- Spectral functions for the closed instances: the phase space is `W (W0 - W)^2`, every
other factor is 2. -/
def exampleSF : SpectralFunctions Unit where
  PhaseSpace := fun W W0 _ _ => W * (W0 - W) ^ 2
  FermiFunction := fun _ _ _ _ => 2
  CCorrectionConnect := fun _ _ _ _ _ _ _ _ _ _ _ _ _ _ _ _ _ _ => 2
  CCorrection := fun _ _ _ _ _ _ _ _ _ _ _ _ _ _ _ _ => 2
  RelativisticCorrection := fun _ _ _ _ _ _ _ => 2
  DeformationCorrection := fun _ _ _ _ _ _ _ _ => 2
  L0Correction := fun _ _ _ _ _ _ => 2
  UCorrection := fun _ _ _ _ _ _ _ => 2
  QCorrection := fun _ _ _ _ _ _ _ => 2
  RadiativeCorrection := fun _ _ _ _ _ _ _ => 2
  NeutrinoRadiativeCorrection := fun _ => 2
  RecoilCorrection := fun _ _ _ _ _ => 2
  AtomicScreeningCorrection := fun _ _ _ => 2
  AtomicExchangeCorrection := fun _ _ => 2
  AtomicMismatchCorrection := fun _ _ _ _ _ => 2

/-- Options for the closed instances: only the phase space is enabled; the grid runs from
0 keV to 1022 keV in steps of 511 keV. -/
def exampleOptions : Options where
  Phasespace := true
  Fermi := false
  C := false
  connect := false
  Isovector := false
  Relativistic := false
  ESDeformation := false
  ESFiniteSize := false
  U := false
  CoulombRecoil := false
  Radiative := false
  Recoil := false
  Screening := false
  Exchange := false
  AtomicMismatch := false
  Begin := 0
  End := 1022
  StepSize := 511
  Steps := none

/-- A generator state for the closed instances: a positron transition with `W0 = 3` and
a spectrum of three samples at W = 1, 2, 3. -/
def exampleGenerator : Generator Unit where
  Z := 10
  A := 20
  R := 1 / 100
  motherSpinParity := 2
  daughterSpinParity := 2
  daughterBeta2 := 0
  betaType := BetaType.BETA_PLUS
  decayType := DecayType.FERMI
  mixingRatio := 0
  gA := 1
  gP := 0
  gM := 5
  W0 := 3
  atomicEnergyDeficit := 1
  fc1 := 1
  fb := 0
  fd := 0
  ratioM121 := 0
  hoFit := 1
  ESShape := "Fermi"
  NSShape := "Fermi"
  vOld := [0, 0, 0]
  vNew := [0, 0, 0]
  exPars := [0, 0, 0, 0, 0, 0, 0, 0, 0]
  aPos := [0, 0, 0, 0, 0, 0, 0]
  aNeg := [0, 0, 0, 0, 0, 0, 0]
  spsi := ()
  spsf := ()
  spectrum := [[1, 1, 0], [2, 1, 0], [3, 1, 0]]

/-- Constants for the closed instances: the electron mass rounded to 511 keV, the nucleon
mass rounded to 939000 keV. -/
def exampleConstants : Constants where
  ELECTRON_MASS_KEV := 511
  NUCLEON_MASS_KEV := 939000

/-- Modelled from the spec: the values of the enum `BetaType` of Constants.h, which is not
among the sources. The sign convention is ±1, and mother Z + betaType is the daughter Z:
+1 for β−, -1 for β+. -/
def BetaType.toInt : BetaType → ℤ
  | BetaType.BETA_MINUS => 1
  | BetaType.BETA_PLUS => -1

/-- The endpoint energy before the recoil correction (Generator.cc 146-150). -/
def W0BeforeRecoil (c : Constants) (betaType : BetaType)
    (QValue atomicEnergyDeficit motherExcitationEn daughterExcitationEn : ℚ) : ℚ :=
  if betaType = BetaType.BETA_MINUS then
    (QValue - atomicEnergyDeficit + motherExcitationEn - daughterExcitationEn) /
      c.ELECTRON_MASS_KEV + 1
  else
    (QValue - atomicEnergyDeficit + motherExcitationEn - daughterExcitationEn) /
      c.ELECTRON_MASS_KEV - 1

/-- The member `W0` that `bsg::Generator::InitializeConstants` sets (Generator.cc 142-151). -/
def InitializeConstants_W0 (c : Constants) (betaType : BetaType)
    (QValue atomicEnergyDeficit motherExcitationEn daughterExcitationEn : ℚ) (A : ℤ) : ℚ :=
  let W0 := W0BeforeRecoil c betaType QValue atomicEnergyDeficit motherExcitationEn
    daughterExcitationEn
  W0 - (W0 * W0 - 1) / 2 / (A : ℚ) / (c.NUCLEON_MASS_KEV / c.ELECTRON_MASS_KEV)

/-- One row `z a b c d e f g h i` of the exchange-parameter file. -/
structure ExchangeRow where
  z : ℚ
  a : ℚ
  b : ℚ
  c : ℚ
  d : ℚ
  e : ℚ
  f : ℚ
  g : ℚ
  h : ℚ
  i : ℚ

/-- The nine coefficients of a row, in the order in which they are stored in `exPars`. -/
def ExchangeRow.coefficients (r : ExchangeRow) : List ℚ :=
  [r.a, r.b, r.c, r.d, r.e, r.f, r.g, r.h, r.i]

/-- The function `bsg::Generator::LoadExchangeParameters` (Generator.cc 189-219). The
table is `none` when the file cannot be opened, and the list of its rows otherwise. -/
def LoadExchangeParameters (table : Option (List ExchangeRow)) (g : Generator SPS) :
    Generator SPS :=
  match table with
  | some rows =>
    rows.foldl (fun g row =>
      if row.z = ((g.Z - g.betaType.toInt : ℤ) : ℚ) then
        { g with exPars := [row.a, row.b, row.c, row.d, row.e, row.f, row.g, row.h, row.i] }
      else g) g
  | none => g

/-- A `double` as far as `GetMatrixElements` tells values apart: a finite value, an
infinity with its sign, or NaN. Rounding and overflow are not embedded, and a zero counts
as +0. -/
inductive Dbl where
  | fin (x : ℚ)
  | inf (negative : Bool)
  | nan
  deriving DecidableEq, Repr

/-- The function `std::isnan`. -/
def Dbl.isnan : Dbl → Bool
  | Dbl.nan => true
  | _ => false

/-- The product of two doubles. -/
def Dbl.mul : Dbl → Dbl → Dbl
  | Dbl.nan, _ => Dbl.nan
  | _, Dbl.nan => Dbl.nan
  | Dbl.fin x, Dbl.fin y => Dbl.fin (x * y)
  | Dbl.fin x, Dbl.inf s => if x = 0 then Dbl.nan else Dbl.inf (xor s (decide (x < 0)))
  | Dbl.inf s, Dbl.fin y => if y = 0 then Dbl.nan else Dbl.inf (xor s (decide (y < 0)))
  | Dbl.inf s, Dbl.inf t => Dbl.inf (xor s t)

/-- The quotient of two doubles: 0/0 and ∞/∞ are NaN, x/0 is an infinity for x ≠ 0. -/
def Dbl.div : Dbl → Dbl → Dbl
  | Dbl.nan, _ => Dbl.nan
  | _, Dbl.nan => Dbl.nan
  | Dbl.fin x, Dbl.fin y =>
    if y = 0 then (if x = 0 then Dbl.nan else Dbl.inf (decide (x < 0))) else Dbl.fin (x / y)
  | Dbl.fin _, Dbl.inf _ => Dbl.fin 0
  | Dbl.inf s, Dbl.fin y => Dbl.inf (xor s (decide (y < 0)))
  | Dbl.inf _, Dbl.inf _ => Dbl.nan

/-- The values that `GetMatrixElements` reads: the options `Spectrum.Lambda`,
`Spectrum.WeakMagnetism` and `Spectrum.InducedTensor` (`none` when the option does not
exist) and the results of the nuclear-structure manager `nsm`. -/
structure MatrixElementInput where
  Lambda : Option Dbl
  WeakMagnetism : Option Dbl
  InducedTensor : Option Dbl
  M101 : Dbl
  M121 : Dbl
  CalculateWeakMagnetism : Dbl
  CalculateInducedTensor : Dbl

/-- The local `M101` and the members that `GetMatrixElements` sets. -/
structure MatrixElements where
  M101 : Dbl
  ratioM121 : Dbl
  bAc : Dbl
  dAc : Dbl
  fc1 : Dbl
  fb : Dbl
  fd : Dbl

/-- The values of `M101` and `ratioM121` after Generator.cc 337-344. -/
def computedM101 (inp : MatrixElementInput) : Dbl :=
  match inp.Lambda with
  | none => inp.M101
  | some _ => Dbl.fin 1

/-- The value of `ratioM121` after Generator.cc 337-344. -/
def computedRatioM121 (inp : MatrixElementInput) : Dbl :=
  match inp.Lambda with
  | none => Dbl.div inp.M121 inp.M101
  | some l => l

/-- The value of `bAc` after Generator.cc 346-352. -/
def computedbAc (inp : MatrixElementInput) : Dbl :=
  match inp.WeakMagnetism with
  | none => inp.CalculateWeakMagnetism
  | some v => v

/-- The value of `dAc` after Generator.cc 353-358. -/
def computeddAc (inp : MatrixElementInput) : Dbl :=
  match inp.InducedTensor with
  | none => inp.CalculateInducedTensor
  | some v => v

/-- The function `bsg::Generator::GetMatrixElements` (Generator.cc 335-389). -/
def GetMatrixElements (inp : MatrixElementInput) (gA : Dbl) (A : ℤ) : MatrixElements :=
  let M101 := computedM101 inp
  let ratioM121 := computedRatioM121 inp
  let bAc := computedbAc inp
  let dAc := computeddAc inp
  let bAc := if bAc.isnan then Dbl.fin 0 else bAc
  let dAc := if dAc.isnan then Dbl.fin 0 else dAc
  let M101 := if ratioM121.isnan then Dbl.fin 1 else M101
  let ratioM121 := if ratioM121.isnan then Dbl.fin 0 else ratioM121
  let bAc := if M101 = Dbl.fin 0 then Dbl.fin 0 else bAc
  let dAc := if M101 = Dbl.fin 0 then Dbl.fin 0 else dAc
  let ratioM121 := if M101 = Dbl.fin 0 then Dbl.fin 0 else ratioM121
  let M101 := if M101 = Dbl.fin 0 then Dbl.fin 1 else M101
  let fc1 := Dbl.mul gA M101
  let fb := Dbl.mul (Dbl.mul bAc (Dbl.fin (A : ℚ))) fc1
  let fd := Dbl.mul (Dbl.mul dAc (Dbl.fin (A : ℚ))) fc1
  { M101 := M101, ratioM121 := ratioM121, bAc := bAc, dAc := dAc, fc1 := fc1, fb := fb,
    fd := fd }

/-- The zero-M101 rule of `GetMatrixElements` applies: `M101` is 0 when the test of
Generator.cc 374 is reached. -/
def zeroM101RuleApplies (inp : MatrixElementInput) : Prop :=
  (computedRatioM121 inp).isnan = false ∧ computedM101 inp = Dbl.fin 0

/-- An input of `GetMatrixElements` for the closed instances: no option exists, both
reduced matrix elements are 0, and the manager returns 1/2 and 1/4. -/
def exampleMatrixInput : MatrixElementInput where
  Lambda := none
  WeakMagnetism := none
  InducedTensor := none
  M101 := Dbl.fin 0
  M121 := Dbl.fin 0
  CalculateWeakMagnetism := Dbl.fin (1 / 2)
  CalculateInducedTensor := Dbl.fin (1 / 4)

/-- An exchange table for the closed instances: the rows for Z = 11, 12 and 11 again. -/
def exampleTable : List ExchangeRow :=
  [{ z := 11, a := 1, b := 2, c := 3, d := 4, e := 5, f := 6, g := 7, h := 8, i := 9 },
   { z := 12, a := 10, b := 20, c := 30, d := 40, e := 50, f := 60, g := 70, h := 80, i := 90 },
   { z := 11, a := 9, b := 8, c := 7, d := 6, e := 5, f := 4, g := 3, h := 2, i := 1 }]

end BSG

namespace Legacy

open BSG

/-- The spectral functions `SF::...` called by the legacy `Generator::CalculateDecayRate`,
with the argument lists of the calls. -/
structure SpectralFunctions where
  PhaseSpace : ℚ → ℚ → ℤ → ℤ → ℚ
  FermiFunction : ℚ → ℤ → ℚ → BetaType → ℚ
  CCorrection : ℚ → ℚ → ℤ → ℤ → ℚ → BetaType → ℚ → DecayType → ℚ → ℚ → ℚ → ℚ → ℚ → ℚ → ℚ
  RelativisticCorrection : ℚ → ℚ → ℤ → ℤ → ℚ → BetaType → DecayType → ℚ
  DeformationCorrection : ℚ → ℚ → ℤ → ℚ → ℚ → ℚ → ℚ
  L0Correction : ℚ → ℤ → ℚ → BetaType → List ℚ → List ℚ → ℚ
  UCorrection : ℚ → ℤ → BetaType → ℚ
  QCorrection : ℚ → ℚ → ℤ → ℤ → BetaType → DecayType → ℚ → ℚ
  RadiativeCorrection : ℚ → ℚ → ℤ → ℚ → BetaType → ℚ → ℚ → ℚ
  NeutrinoRadiativeCorrection : ℚ → ℚ
  RecoilCorrection : ℚ → ℚ → ℤ → DecayType → ℚ → ℚ
  AtomicScreeningCorrection : ℚ → ℤ → BetaType → ℚ
  AtomicExchangeCorrection : ℚ → List ℚ → ℚ
  AtomicMismatchCorrection : ℚ → ℚ → ℤ → ℤ → BetaType → ℚ

/-- The options read by the legacy `CalculateDecayRate` and `CalculateSpectrum`. A Boolean
field is `OptExists(name)`: a correction is applied when its option does not exist. -/
structure Options where
  phase : Bool
  fermi : Bool
  C : Bool
  relativistic : Bool
  deformation : Bool
  l0 : Bool
  U : Bool
  Q : Bool
  radiative : Bool
  recoil : Bool
  screening : Bool
  exchange : Bool
  mismatch : Bool
  begin_ : ℚ
  end_ : ℚ
  step : ℚ

/-- The data members of the legacy `Generator` that the embedded functions read or write. -/
structure Generator where
  Z : ℤ
  A : ℤ
  R : ℚ
  motherSpinParity : ℤ
  daughterSpinParity : ℤ
  daughterBeta2 : ℚ
  daughterBeta4 : ℚ
  fBetaType : BetaType
  fDecayType : DecayType
  mixingRatio : ℚ
  gA : ℚ
  gP : ℚ
  gM : ℚ
  W0 : ℚ
  fc1 : ℚ
  fb : ℚ
  fd : ℚ
  ratioM121 : ℚ
  hoFit : ℚ
  exPars : List ℚ
  aPos : List ℚ
  aNeg : List ℚ
  spectrum : List (List ℚ)

/-- The legacy function `Generator::CalculateDecayRate` (Generator.cpp 290-365). It
returns a pointer to the local array `{result, neutrinoResult}`, which the caller reads
at once; the array is the pair. There is no floor at 0. -/
def CalculateDecayRate (sf : SpectralFunctions) (o : Options) (g : Generator) (W : ℚ) : ℚ × ℚ :=
  let r : ℚ × ℚ := (1, 1)
  let Wv : ℚ := g.W0 - W + 1
  let r := if !o.phase then
      (r.1 * sf.PhaseSpace W g.W0 g.motherSpinParity g.daughterSpinParity,
       r.2 * sf.PhaseSpace Wv g.W0 g.motherSpinParity g.daughterSpinParity)
    else r
  let r := if !o.fermi then
      (r.1 * sf.FermiFunction W g.Z g.R g.fBetaType,
       r.2 * sf.FermiFunction Wv g.Z g.R g.fBetaType)
    else r
  let r := if !o.C then
      (r.1 * sf.CCorrection W g.W0 g.Z g.A g.R g.fBetaType g.hoFit g.fDecayType g.gA g.gP
          g.fc1 g.fb g.fd g.ratioM121,
       r.2 * sf.CCorrection Wv g.W0 g.Z g.A g.R g.fBetaType g.hoFit g.fDecayType g.gA g.gP
          g.fc1 g.fb g.fd g.ratioM121)
    else r
  let r := if !o.relativistic then
      (r.1 * sf.RelativisticCorrection W g.W0 g.Z g.A g.R g.fBetaType g.fDecayType,
       r.2 * sf.RelativisticCorrection Wv g.W0 g.Z g.A g.R g.fBetaType g.fDecayType)
    else r
  let r := if !o.deformation then
      (r.1 * sf.DeformationCorrection W g.W0 g.Z g.R g.daughterBeta2 g.daughterBeta4,
       r.2 * sf.DeformationCorrection Wv g.W0 g.Z g.R g.daughterBeta2 g.daughterBeta4)
    else r
  let r := if !o.l0 then
      (r.1 * sf.L0Correction W g.Z g.R g.fBetaType g.aPos g.aNeg,
       r.2 * sf.L0Correction Wv g.Z g.R g.fBetaType g.aPos g.aNeg)
    else r
  let r := if !o.U then
      (r.1 * sf.UCorrection W g.Z g.fBetaType,
       r.2 * sf.UCorrection Wv g.Z g.fBetaType)
    else r
  let r := if !o.Q then
      (r.1 * sf.QCorrection W g.W0 g.Z g.A g.fBetaType g.fDecayType g.mixingRatio,
       r.2 * sf.QCorrection Wv g.W0 g.Z g.A g.fBetaType g.fDecayType g.mixingRatio)
    else r
  let r := if !o.radiative then
      (r.1 * sf.RadiativeCorrection W g.W0 g.Z g.R g.fBetaType g.gA g.gM,
       r.2 * sf.NeutrinoRadiativeCorrection Wv)
    else r
  let r := if !o.recoil then
      (r.1 * sf.RecoilCorrection W g.W0 g.A g.fDecayType g.mixingRatio,
       r.2 * sf.RecoilCorrection Wv g.W0 g.A g.fDecayType g.mixingRatio)
    else r
  let r := if !o.screening then
      (r.1 * sf.AtomicScreeningCorrection W g.Z g.fBetaType,
       r.2 * sf.AtomicScreeningCorrection Wv g.Z g.fBetaType)
    else r
  let r := if !o.exchange then
      (if g.fBetaType = BetaType.BETA_MINUS then
        (r.1 * sf.AtomicExchangeCorrection W g.exPars,
         r.2 * sf.AtomicExchangeCorrection Wv g.exPars)
      else r)
    else r
  let r := if !o.mismatch then
      (r.1 * sf.AtomicMismatchCorrection W g.W0 g.Z g.A g.fBetaType,
       r.2 * sf.AtomicMismatchCorrection Wv g.W0 g.Z g.A g.fBetaType)
    else r
  (r.1, r.2)

/-- The local `beginW` of the legacy `CalculateSpectrum`; `electronMasskeV` is the
constant `ELECTRON_MASS_KEV`. -/
def beginW (c : Constants) (o : Options) : ℚ := o.begin_ / c.ELECTRON_MASS_KEV + 1

/-- The local `endW` of the legacy `CalculateSpectrum`. -/
def endW (c : Constants) (o : Options) (g : Generator) : ℚ :=
  if o.end_ = 0 then g.W0 else o.end_ / c.ELECTRON_MASS_KEV + 1

/-- The local `stepW` of the legacy `CalculateSpectrum`. -/
def stepW (c : Constants) (o : Options) : ℚ := o.step / c.ELECTRON_MASS_KEV

/-- The legacy function `Generator::CalculateSpectrum` (Generator.cpp 367-387): the grid
loop pushes onto the member `spectrum`, and the function returns a copy of it. -/
def CalculateSpectrum (sf : SpectralFunctions) (c : Constants) (o : Options) (g : Generator)
    (fuel : ℕ) : Option Generator :=
  (spectrumLoop (CalculateDecayRate sf o g) (endW c o g) (stepW c o) fuel (beginW c o)
      g.spectrum).map
    (fun s => { g with spectrum := s })

/-- Legacy spectral functions for the closed instances: the phase space is `W (W0 - W)^2`,
every other factor is 2. -/
def exampleSF : SpectralFunctions where
  PhaseSpace := fun W W0 _ _ => W * (W0 - W) ^ 2
  FermiFunction := fun _ _ _ _ => 2
  CCorrection := fun _ _ _ _ _ _ _ _ _ _ _ _ _ _ => 2
  RelativisticCorrection := fun _ _ _ _ _ _ _ => 2
  DeformationCorrection := fun _ _ _ _ _ _ => 2
  L0Correction := fun _ _ _ _ _ _ => 2
  UCorrection := fun _ _ _ => 2
  QCorrection := fun _ _ _ _ _ _ _ => 2
  RadiativeCorrection := fun _ _ _ _ _ _ _ => 2
  NeutrinoRadiativeCorrection := fun _ => 2
  RecoilCorrection := fun _ _ _ _ _ => 2
  AtomicScreeningCorrection := fun _ _ _ => 2
  AtomicExchangeCorrection := fun _ _ => 2
  AtomicMismatchCorrection := fun _ _ _ _ _ => 2

/-- Legacy options for the closed instances: every correction but the phase space is
switched off; the grid runs from 0 keV to 1022 keV in steps of 511 keV. -/
def exampleOptions : Options where
  phase := false
  fermi := true
  C := true
  relativistic := true
  deformation := true
  l0 := true
  U := true
  Q := true
  radiative := true
  recoil := true
  screening := true
  exchange := true
  mismatch := true
  begin_ := 0
  end_ := 1022
  step := 511

/-- A legacy generator state for the closed instances: a positron transition with
`W0 = 3` and an empty spectrum. -/
def exampleGenerator : Generator where
  Z := 10
  A := 20
  R := 1 / 100
  motherSpinParity := 2
  daughterSpinParity := 2
  daughterBeta2 := 0
  daughterBeta4 := 0
  fBetaType := BetaType.BETA_PLUS
  fDecayType := DecayType.FERMI
  mixingRatio := 0
  gA := 1
  gP := 0
  gM := 5
  W0 := 3
  fc1 := 1
  fb := 0
  fd := 0
  ratioM121 := 0
  hoFit := 1
  exPars := [0, 0, 0, 0, 0, 0, 0, 0, 0]
  aPos := [0, 0, 0, 0, 0, 0, 0]
  aNeg := [0, 0, 0, 0, 0, 0, 0]
  spectrum := []

/-- The endpoint energy before the recoil correction in the legacy constructor
(Generator.cpp 64-69); `electronMasskeV` is the constant `ELECTRON_MASS_KEV`. -/
def W0BeforeRecoil (c : Constants) (fBetaType : BetaType) (QValue : ℚ) : ℚ :=
  if fBetaType = BetaType.BETA_MINUS then QValue / c.ELECTRON_MASS_KEV + 1
  else QValue / c.ELECTRON_MASS_KEV - 1

/-- The member `W0` that the legacy constructor `Generator::Generator` sets
(Generator.cpp 62-70); 9187/5 is the literal 1837.4. -/
def Generator_W0 (c : Constants) (fBetaType : BetaType) (QValue : ℚ) (A : ℤ) : ℚ :=
  let W0 := W0BeforeRecoil c fBetaType QValue
  W0 - (W0 * W0 - 1) / 2 / (A : ℚ) / (9187 / 5)

/-- The legacy function `Generator::LoadExchangeParameters` (Generator.cpp 81-107). The
local `Z` of the loop body, read from the row, hides the member `Z`: both sides of the
comparison `Z == Z - fBetaType` are the local. -/
def LoadExchangeParameters (table : Option (List ExchangeRow)) (g : Generator) : Generator :=
  match table with
  | some rows =>
    rows.foldl (fun g row =>
      let Z : ℚ := row.z
      if Z = Z - ((g.fBetaType.toInt : ℤ) : ℚ) then
        { g with exPars := [row.a, row.b, row.c, row.d, row.e, row.f, row.g, row.h, row.i] }
      else g) g
  | none => g

/-- The factors that the legacy `CalculateDecayRate` applies to the electron branch, in
the order of the source, each evaluated at `W`. -/
def electronFactors (sf : SpectralFunctions) (o : Options) (g : Generator) (W : ℚ) : List ℚ :=
  (if !o.phase then [sf.PhaseSpace W g.W0 g.motherSpinParity g.daughterSpinParity] else [])
  ++ (if !o.fermi then [sf.FermiFunction W g.Z g.R g.fBetaType] else [])
  ++ (if !o.C then
        [sf.CCorrection W g.W0 g.Z g.A g.R g.fBetaType g.hoFit g.fDecayType g.gA g.gP
          g.fc1 g.fb g.fd g.ratioM121]
      else [])
  ++ (if !o.relativistic then
        [sf.RelativisticCorrection W g.W0 g.Z g.A g.R g.fBetaType g.fDecayType] else [])
  ++ (if !o.deformation then
        [sf.DeformationCorrection W g.W0 g.Z g.R g.daughterBeta2 g.daughterBeta4] else [])
  ++ (if !o.l0 then [sf.L0Correction W g.Z g.R g.fBetaType g.aPos g.aNeg] else [])
  ++ (if !o.U then [sf.UCorrection W g.Z g.fBetaType] else [])
  ++ (if !o.Q then
        [sf.QCorrection W g.W0 g.Z g.A g.fBetaType g.fDecayType g.mixingRatio] else [])
  ++ (if !o.radiative then
        [sf.RadiativeCorrection W g.W0 g.Z g.R g.fBetaType g.gA g.gM] else [])
  ++ (if !o.recoil then [sf.RecoilCorrection W g.W0 g.A g.fDecayType g.mixingRatio] else [])
  ++ (if !o.screening then [sf.AtomicScreeningCorrection W g.Z g.fBetaType] else [])
  ++ (if (!o.exchange) = true ∧ g.fBetaType = BetaType.BETA_MINUS then
        [sf.AtomicExchangeCorrection W g.exPars] else [])
  ++ (if !o.mismatch then [sf.AtomicMismatchCorrection W g.W0 g.Z g.A g.fBetaType] else [])

/-- The factors that the legacy `CalculateDecayRate` applies to the neutrino branch, in
the order of the source, each evaluated at `Wv`. -/
def neutrinoFactors (sf : SpectralFunctions) (o : Options) (g : Generator) (Wv : ℚ) : List ℚ :=
  (if !o.phase then [sf.PhaseSpace Wv g.W0 g.motherSpinParity g.daughterSpinParity] else [])
  ++ (if !o.fermi then [sf.FermiFunction Wv g.Z g.R g.fBetaType] else [])
  ++ (if !o.C then
        [sf.CCorrection Wv g.W0 g.Z g.A g.R g.fBetaType g.hoFit g.fDecayType g.gA g.gP
          g.fc1 g.fb g.fd g.ratioM121]
      else [])
  ++ (if !o.relativistic then
        [sf.RelativisticCorrection Wv g.W0 g.Z g.A g.R g.fBetaType g.fDecayType] else [])
  ++ (if !o.deformation then
        [sf.DeformationCorrection Wv g.W0 g.Z g.R g.daughterBeta2 g.daughterBeta4] else [])
  ++ (if !o.l0 then [sf.L0Correction Wv g.Z g.R g.fBetaType g.aPos g.aNeg] else [])
  ++ (if !o.U then [sf.UCorrection Wv g.Z g.fBetaType] else [])
  ++ (if !o.Q then
        [sf.QCorrection Wv g.W0 g.Z g.A g.fBetaType g.fDecayType g.mixingRatio] else [])
  ++ (if !o.radiative then [sf.NeutrinoRadiativeCorrection Wv] else [])
  ++ (if !o.recoil then [sf.RecoilCorrection Wv g.W0 g.A g.fDecayType g.mixingRatio] else [])
  ++ (if !o.screening then [sf.AtomicScreeningCorrection Wv g.Z g.fBetaType] else [])
  ++ (if (!o.exchange) = true ∧ g.fBetaType = BetaType.BETA_MINUS then
        [sf.AtomicExchangeCorrection Wv g.exPars] else [])
  ++ (if !o.mismatch then [sf.AtomicMismatchCorrection Wv g.W0 g.Z g.A g.fBetaType] else [])

end Legacy

/-! ## Helper lemmas -/

namespace BSG

variable {SPS : Type}

theorem stdMax_zero_nonneg (x : ℚ) : 0 ≤ stdMax 0 x := by
  unfold stdMax
  split <;> linarith

theorem stdMax_zero_eq_max (x : ℚ) : stdMax 0 x = max 0 x := by
  unfold stdMax
  split
  · rw [max_eq_right (le_of_lt ‹_›)]
  · rw [max_eq_left (not_lt.mp ‹_›)]

theorem foldl_toggle (c : Prop) [Decidable c] (x acc : ℚ) :
    List.foldl (fun a f => a * f) acc (if c then [x] else []) = if c then acc * x else acc := by
  split <;> simp

theorem fst_ite (c : Prop) [Decidable c] (x y : ℚ × ℚ) :
    (if c then x else y).1 = if c then x.1 else y.1 := by split <;> rfl

theorem snd_ite (c : Prop) [Decidable c] (x y : ℚ × ℚ) :
    (if c then x else y).2 = if c then x.2 else y.2 := by split <;> rfl

/-- The code of `CalculateDecayRate` computes the floored ordered products of the enabled
factors. -/
theorem CalculateDecayRate_eq_products (sf : SpectralFunctions SPS) (o : Options)
    (g : Generator SPS) (W : ℚ) :
    CalculateDecayRate sf o g W =
      (stdMax 0 (orderedProduct (electronFactors sf o g W)),
       stdMax 0 (orderedProduct (neutrinoFactors sf o g (g.W0 - W + 1)))) := by
  simp only [CalculateDecayRate, electronFactors, neutrinoFactors, orderedProduct,
    List.foldl_append, foldl_toggle, fst_ite, snd_ite, mul_ite]
  simp only [ite_and, and_self]

end BSG

/-! ## The decay rate at one energy -/

namespace BSG

variable {SPS : Type}

/-- C1: in the current variant both components of the pair returned by
`CalculateDecayRate` are at least 0, for every W, every toggle configuration, every
generator state and all spectral functions, whatever values these return. -/
theorem CalculateDecayRate_nonneg (sf : SpectralFunctions SPS) (o : Options)
    (g : Generator SPS) (W : ℚ) :
    0 ≤ (CalculateDecayRate sf o g W).1 ∧ 0 ≤ (CalculateDecayRate sf o g W).2 := by
  simp only [CalculateDecayRate_eq_products, stdMax_zero_nonneg, and_self]

/-- C2: in the current variant the rate is max(0, P), with P the left-to-right product,
starting from 1, of the enabled factors in the fixed order, each at W; the neutrino rate
is max(0, P'), with P' the same ordered product at Wv = W0 - W + 1 and with
`NeutrinoRadiativeCorrection` in the radiative slot. -/
theorem CalculateDecayRate_ordered_product (sf : SpectralFunctions SPS) (o : Options)
    (g : Generator SPS) (W : ℚ) :
    (CalculateDecayRate sf o g W).1 = max 0 (orderedProduct (electronFactors sf o g W)) ∧
    (CalculateDecayRate sf o g W).2 =
      max 0 (orderedProduct (neutrinoFactors sf o g (g.W0 - W + 1))) := by
  simp only [CalculateDecayRate_eq_products, stdMax_zero_eq_max, and_self]

/-- C3, as stated, fails: with only the phase space enabled and a negative phase-space
value (here at W = -2) the returned rate is 0, not the phase-space value. -/
theorem phaseSpaceOnly_counterexample :
    OnlyPhasespace exampleOptions ∧
    (CalculateDecayRate exampleSF exampleOptions exampleGenerator (-2)).1 = 0 ∧
    exampleSF.PhaseSpace (-2) exampleGenerator.W0 exampleGenerator.motherSpinParity
      exampleGenerator.daughterSpinParity = -50 ∧
    (CalculateDecayRate exampleSF exampleOptions exampleGenerator (-2)).1 ≠
      exampleSF.PhaseSpace (-2) exampleGenerator.W0 exampleGenerator.motherSpinParity
        exampleGenerator.daughterSpinParity := by
  have h1 : (CalculateDecayRate exampleSF exampleOptions exampleGenerator (-2)).1 = 0 := by
    simp only [CalculateDecayRate_eq_products]
    norm_num [electronFactors, orderedProduct, exampleSF, exampleOptions, exampleGenerator,
      stdMax]
  have h2 : exampleSF.PhaseSpace (-2) exampleGenerator.W0 exampleGenerator.motherSpinParity
      exampleGenerator.daughterSpinParity = -50 := by
    norm_num [exampleSF, exampleGenerator]
  refine ⟨?_, h1, h2, ?_⟩
  · simp [OnlyPhasespace, exampleOptions]
  · rw [h1, h2]; norm_num

/-- C3, amended: with every correction toggle disabled except `Spectrum.Phasespace`, the
rate is max(0, PhaseSpace(W, ...)) and the neutrino rate is max(0, PhaseSpace(W0 - W + 1,
...)); each equals the phase-space value exactly whenever that value is at least 0. -/
theorem phaseSpaceOnly_floor (sf : SpectralFunctions SPS) (o : Options) (g : Generator SPS)
    (W : ℚ) (h : OnlyPhasespace o) :
    (CalculateDecayRate sf o g W).1 =
      max 0 (sf.PhaseSpace W g.W0 g.motherSpinParity g.daughterSpinParity) ∧
    (CalculateDecayRate sf o g W).2 =
      max 0 (sf.PhaseSpace (g.W0 - W + 1) g.W0 g.motherSpinParity g.daughterSpinParity) ∧
    (0 ≤ sf.PhaseSpace W g.W0 g.motherSpinParity g.daughterSpinParity →
      (CalculateDecayRate sf o g W).1 =
        sf.PhaseSpace W g.W0 g.motherSpinParity g.daughterSpinParity) ∧
    (0 ≤ sf.PhaseSpace (g.W0 - W + 1) g.W0 g.motherSpinParity g.daughterSpinParity →
      (CalculateDecayRate sf o g W).2 =
        sf.PhaseSpace (g.W0 - W + 1) g.W0 g.motherSpinParity g.daughterSpinParity) := by
  obtain ⟨h1, h2, h3, h4, h5, h6, h7, h8, h9, h10, h11, h12, h13⟩ := h
  have e1 : (CalculateDecayRate sf o g W).1 =
      max 0 (sf.PhaseSpace W g.W0 g.motherSpinParity g.daughterSpinParity) := by
    simp only [CalculateDecayRate_eq_products, stdMax_zero_eq_max]
    simp [electronFactors, orderedProduct, h1, h2, h3, h4, h5, h6, h7, h8, h9, h10, h11,
      h12, h13]
  have e2 : (CalculateDecayRate sf o g W).2 =
      max 0 (sf.PhaseSpace (g.W0 - W + 1) g.W0 g.motherSpinParity g.daughterSpinParity) := by
    simp only [CalculateDecayRate_eq_products, stdMax_zero_eq_max]
    simp [neutrinoFactors, orderedProduct, h1, h2, h3, h4, h5, h6, h7, h8, h9, h10, h11,
      h12, h13]
  refine ⟨e1, e2, ?_, ?_⟩
  · intro hp
    rw [e1, max_eq_right hp]
  · intro hp
    rw [e2, max_eq_right hp]

/-- Witness of C3 (amended): the closed instance at W = 2, where the phase space is 2. -/
theorem phaseSpaceOnly_floor_witness :
    OnlyPhasespace exampleOptions ∧
    (CalculateDecayRate exampleSF exampleOptions exampleGenerator 2).1 =
      max 0 (exampleSF.PhaseSpace 2 exampleGenerator.W0 exampleGenerator.motherSpinParity
        exampleGenerator.daughterSpinParity) :=
  ⟨by simp [OnlyPhasespace, exampleOptions],
   (phaseSpaceOnly_floor exampleSF exampleOptions exampleGenerator 2
      (by simp [OnlyPhasespace, exampleOptions])).1⟩

/-- C4: in both variants, for a positron transition `CalculateDecayRate` returns the same
pair whether the atomic-exchange toggle is enabled or disabled, for every W, every
`exPars` and every setting of the other toggles. -/
theorem exchange_noop_for_positrons (sf : SpectralFunctions SPS) (o : Options)
    (g : Generator SPS) (lsf : Legacy.SpectralFunctions) (lo : Legacy.Options)
    (lg : Legacy.Generator) (W : ℚ)
    (h : g.betaType = BetaType.BETA_PLUS) (hl : lg.fBetaType = BetaType.BETA_PLUS) :
    CalculateDecayRate sf { o with Exchange := true } g W =
      CalculateDecayRate sf { o with Exchange := false } g W ∧
    Legacy.CalculateDecayRate lsf { lo with exchange := false } lg W =
      Legacy.CalculateDecayRate lsf { lo with exchange := true } lg W := by
  constructor
  · simp only [CalculateDecayRate_eq_products]
    simp [electronFactors, neutrinoFactors, h]
  · simp only [Legacy.CalculateDecayRate, hl]
    simp

/-- Witness of C4: the closed instances are positron transitions. -/
theorem exchange_noop_for_positrons_witness :
    CalculateDecayRate exampleSF { exampleOptions with Exchange := true } exampleGenerator 2 =
      CalculateDecayRate exampleSF { exampleOptions with Exchange := false }
        exampleGenerator 2 ∧
    Legacy.CalculateDecayRate Legacy.exampleSF
        { Legacy.exampleOptions with exchange := false } Legacy.exampleGenerator 2 =
      Legacy.CalculateDecayRate Legacy.exampleSF
        { Legacy.exampleOptions with exchange := true } Legacy.exampleGenerator 2 :=
  exchange_noop_for_positrons exampleSF exampleOptions exampleGenerator Legacy.exampleSF
    Legacy.exampleOptions Legacy.exampleGenerator 2 rfl rfl

/-- C5: in the current variant, when `atomicEnergyDeficit` is not 0, `CalculateDecayRate`
returns the same pair whether `Spectrum.AtomicMismatch` is enabled or disabled, for every
W and every setting of the other toggles. -/
theorem mismatch_skipped_when_deficit (sf : SpectralFunctions SPS) (o : Options)
    (g : Generator SPS) (W : ℚ) (h : g.atomicEnergyDeficit ≠ 0) :
    CalculateDecayRate sf { o with AtomicMismatch := true } g W =
      CalculateDecayRate sf { o with AtomicMismatch := false } g W := by
  simp only [CalculateDecayRate_eq_products]
  simp [electronFactors, neutrinoFactors, h]

/-- Witness of C5: the closed instance has an atomic energy deficit of 1. -/
theorem mismatch_skipped_when_deficit_witness :
    exampleGenerator.atomicEnergyDeficit ≠ 0 ∧
    CalculateDecayRate exampleSF { exampleOptions with AtomicMismatch := true }
        exampleGenerator 2 =
      CalculateDecayRate exampleSF { exampleOptions with AtomicMismatch := false }
        exampleGenerator 2 :=
  ⟨by simp [exampleGenerator],
   mismatch_skipped_when_deficit exampleSF exampleOptions exampleGenerator 2
     (by simp [exampleGenerator])⟩

end BSG

/-! ## The integral quantities -/

namespace BSG

variable {SPS : Type}

/-- C6: `CalculateLogFtValue(t)` is log10 of the Simpson integral of the spectrum times t,
and `CalculateLogFtValue(1)` is log10 of the Simpson integral itself. -/
theorem CalculateLogFtValue_eq (rule : List (List ℚ) → ℚ) (log10 : ℚ → ℚ)
    (g : Generator SPS) (t : ℚ) :
    CalculateLogFtValue rule log10 g t =
      (Simpson rule g.spectrum).map (fun f => log10 (f * t)) ∧
    CalculateLogFtValue rule log10 g 1 = (Simpson rule g.spectrum).map log10 := by
  unfold CalculateLogFtValue
  cases hS : Simpson rule g.spectrum <;>
    simp [Except.map, bind, Except.bind, pure, Except.pure]

/-- C7, as stated, fails: on the three samples W = 1, 2, 3 with rate 1,
`CalculateMeanEnergy` returns the ratio 2, while the mean energy in keV is
(2 - 1) * 511 = 511. -/
theorem meanEnergy_counterexample :
    CalculateMeanEnergy threePointRule exampleGenerator = Except.ok 2 ∧
    meanEnergyKeV exampleConstants threePointRule exampleGenerator.spectrum =
      Except.ok 511 ∧
    CalculateMeanEnergy threePointRule exampleGenerator ≠
      meanEnergyKeV exampleConstants threePointRule exampleGenerator.spectrum := by
  have h1 : CalculateMeanEnergy threePointRule exampleGenerator = Except.ok 2 := by
    simp [CalculateMeanEnergy, Simpson, weightedSpectrum, threePointRule, exampleGenerator,
      bind, Except.bind, pure, Except.pure]
    norm_num
  have h2 : meanEnergyKeV exampleConstants threePointRule exampleGenerator.spectrum =
      Except.ok 511 := by
    simp [meanEnergyKeV, Simpson, threePointRule, exampleGenerator, exampleConstants,
      bind, Except.bind, pure, Except.pure]
    norm_num
  refine ⟨h1, h2, ?_⟩
  rw [h1, h2]
  intro h
  injection h with h
  norm_num at h

/-- C7, amended: `CalculateMeanEnergy` returns the ratio Simpson(W*rate)/Simpson(rate), in
units of the electron mass; the mean energy in keV is that ratio minus 1, times
`ELECTRON_MASS_KEV`, and it is the value that `PrepareOutputFile` reports. The weighted
spectrum has the W grid of the spectrum and pairs each W with W*rate. -/
theorem meanEnergy_ratio_and_report (c : Constants) (rule : List (List ℚ) → ℚ)
    (g : Generator SPS) :
    (CalculateMeanEnergy rule g).map (fun m => (m - 1) * c.ELECTRON_MASS_KEV) =
      meanEnergyKeV c rule g.spectrum ∧
    reportedMeanEnergy c rule g = meanEnergyKeV c rule g.spectrum ∧
    (weightedSpectrum g.spectrum).length = g.spectrum.length ∧
    wColumn (weightedSpectrum g.spectrum) = wColumn g.spectrum ∧
    (weightedSpectrum g.spectrum).map (fun e => e.getD 1 0) =
      g.spectrum.map (fun e => e.getD 0 0 * e.getD 1 0) := by
  refine ⟨?_, ?_, ?_, ?_, ?_⟩
  · unfold CalculateMeanEnergy meanEnergyKeV weightedSpectrum
    cases Simpson rule (List.map (fun e => [e.getD 0 0, e.getD 0 0 * e.getD 1 0]) g.spectrum) <;>
      cases Simpson rule g.spectrum <;>
      simp [Except.map, bind, Except.bind, pure, Except.pure]
  · unfold reportedMeanEnergy CalculateMeanEnergy meanEnergyKeV weightedSpectrum
    cases Simpson rule (List.map (fun e => [e.getD 0 0, e.getD 0 0 * e.getD 1 0]) g.spectrum) <;>
      cases Simpson rule g.spectrum <;>
      simp [bind, Except.bind, pure, Except.pure]
  · simp [weightedSpectrum]
  · simp [weightedSpectrum, wColumn]
  · simp [weightedSpectrum]

/-- C8: when the spectrum has fewer than 3 samples, `CalculateLogFtValue` and
`CalculateMeanEnergy` fail with `EmptySpectrum`. -/
theorem analytics_fail_on_short_spectrum (rule : List (List ℚ) → ℚ) (log10 : ℚ → ℚ)
    (g : Generator SPS) (t : ℚ) (h : g.spectrum.length < 3) :
    CalculateLogFtValue rule log10 g t = Except.error SpectrumError.EmptySpectrum ∧
    CalculateMeanEnergy rule g = Except.error SpectrumError.EmptySpectrum := by
  have hw : (weightedSpectrum g.spectrum).length < 3 := by
    simpa [weightedSpectrum] using h
  constructor
  · simp [CalculateLogFtValue, Simpson, h, bind, Except.bind]
  · simp [CalculateMeanEnergy, Simpson, hw, bind, Except.bind]

/-- Witness of C8: the empty spectrum and a spectrum of two samples. -/
theorem analytics_fail_on_short_spectrum_witness :
    (CalculateLogFtValue threePointRule (fun x => x)
        { exampleGenerator with spectrum := [] } 1 =
      Except.error SpectrumError.EmptySpectrum ∧
     CalculateMeanEnergy threePointRule { exampleGenerator with spectrum := [] } =
      Except.error SpectrumError.EmptySpectrum) ∧
    (CalculateLogFtValue threePointRule (fun x => x)
        { exampleGenerator with spectrum := [[1, 0, 0], [2, 1, 1]] } 1 =
      Except.error SpectrumError.EmptySpectrum ∧
     CalculateMeanEnergy threePointRule
        { exampleGenerator with spectrum := [[1, 0, 0], [2, 1, 1]] } =
      Except.error SpectrumError.EmptySpectrum) :=
  ⟨analytics_fail_on_short_spectrum threePointRule (fun x => x)
      { exampleGenerator with spectrum := [] } 1 (by decide),
   analytics_fail_on_short_spectrum threePointRule (fun x => x)
      { exampleGenerator with spectrum := [[1, 0, 0], [2, 1, 1]] } 1 (by decide)⟩

end BSG

/-! ## The spectrum grid -/

namespace BSG

variable {SPS : Type}

theorem gridCount_of_gt (endW stepW w : ℚ) (hs : 0 < stepW) (h : ¬ w ≤ endW) :
    gridCount endW stepW w = 0 := by
  unfold gridCount
  have hx : (endW - w) / stepW < 0 := div_neg_of_neg_of_pos (by linarith) hs
  have hf : ⌊(endW - w) / stepW⌋ < 0 := by
    rw [Int.floor_lt]
    exact_mod_cast hx
  omega

theorem gridCount_of_le (endW stepW w : ℚ) (hs : 0 < stepW) (h : w ≤ endW) :
    gridCount endW stepW w = gridCount endW stepW (w + stepW) + 1 := by
  unfold gridCount
  have hx : 0 ≤ (endW - w) / stepW := div_nonneg (by linarith) (le_of_lt hs)
  have hf : 0 ≤ ⌊(endW - w) / stepW⌋ := Int.floor_nonneg.mpr hx
  have he : (endW - (w + stepW)) / stepW = (endW - w) / stepW - 1 := by
    field_simp
    ring
  rw [he, Int.floor_sub_one]
  omega

/-- With a positive step and enough fuel the grid loop ends, and it appends the grid
samples from `w` on to the spectrum. -/
theorem spectrumLoop_eq (rate : ℚ → ℚ × ℚ) (endW stepW : ℚ) (hs : 0 < stepW) :
    ∀ (fuel : ℕ) (w : ℚ) (acc : List (List ℚ)), gridCount endW stepW w < fuel →
      spectrumLoop rate endW stepW fuel w acc =
        some (acc ++ gridSamples rate stepW w (gridCount endW stepW w)) := by
  intro fuel
  induction fuel with
  | zero => intro w acc h; omega
  | succ n ih =>
    intro w acc h
    unfold spectrumLoop
    by_cases hw : w ≤ endW
    · have hc := gridCount_of_le endW stepW w hs hw
      simp only [hw, if_true]
      rw [ih (w + stepW) _ (by omega), hc]
      simp [gridSamples]
    · have hc := gridCount_of_gt endW stepW w hs hw
      simp [hw, hc, gridSamples]

theorem gridSamples_length (rate : ℚ → ℚ × ℚ) (stepW : ℚ) :
    ∀ (n : ℕ) (w : ℚ), (gridSamples rate stepW w n).length = n := by
  intro n
  induction n with
  | zero => intro w; rfl
  | succ n ih => intro w; simp [gridSamples, ih]

theorem wColumn_gridSamples (rate : ℚ → ℚ × ℚ) (stepW : ℚ) :
    ∀ (n : ℕ) (w : ℚ),
      wColumn (gridSamples rate stepW w n) = (List.range n).map (fun k : ℕ => w + (k : ℚ) * stepW) := by
  intro n
  induction n with
  | zero => intro w; rfl
  | succ n ih =>
    intro w
    have h := ih (w + stepW)
    unfold wColumn at h ⊢
    rw [List.range_succ_eq_map]
    simp only [gridSamples, List.map_cons, List.map_map, h]
    simp only [List.getD_cons_zero, Nat.cast_zero, zero_mul, add_zero, List.cons.injEq, true_and]
    apply List.map_congr_left
    intro k _
    simp only [Function.comp, Nat.cast_succ]
    ring

theorem mem_gridSamples (rate : ℚ → ℚ × ℚ) (stepW : ℚ) :
    ∀ (n : ℕ) (w : ℚ) (e : List ℚ), e ∈ gridSamples rate stepW w n →
      ∃ k : ℕ, k < n ∧
        e = [w + k * stepW, (rate (w + k * stepW)).1, (rate (w + k * stepW)).2] := by
  intro n
  induction n with
  | zero => intro w e h; simp [gridSamples] at h
  | succ n ih =>
    intro w e h
    simp only [gridSamples, List.mem_cons] at h
    rcases h with h | h
    · exact ⟨0, by omega, by simp [h]⟩
    · obtain ⟨k, hk, he⟩ := ih (w + stepW) e h
      refine ⟨k + 1, by omega, ?_⟩
      have : w + ((k + 1 : ℕ) : ℚ) * stepW = w + stepW + k * stepW := by
        push_cast; ring
      rw [this]
      exact he

theorem grid_point_le (endW stepW w : ℚ) (hs : 0 < stepW) (k : ℕ)
    (hk : k < gridCount endW stepW w) : w + k * stepW ≤ endW := by
  unfold gridCount at hk
  have h1 : (k : ℤ) ≤ ⌊(endW - w) / stepW⌋ := by omega
  have h2 : ((k : ℤ) : ℚ) ≤ (endW - w) / stepW := Int.le_floor.mp h1
  have h3 : (k : ℚ) * stepW ≤ endW - w := by
    have := (le_div_iff₀ hs).mp h2
    simpa using this
  linarith

/-- The grid samples from `beginW` on, as many as fit below `endW`, have the grid
property. -/
theorem isGrid_gridSamples (rate : ℚ → ℚ × ℚ) (beginW endW stepW : ℚ) (hs : 0 < stepW) :
    IsGrid rate beginW endW stepW
      (gridSamples rate stepW beginW (gridCount endW stepW beginW)) := by
  refine ⟨?_, ?_, ?_, ?_⟩
  · intro e he
    cases hn : gridCount endW stepW beginW with
    | zero => rw [hn] at he; simp [gridSamples] at he
    | succ n =>
      rw [hn] at he
      simp only [gridSamples, List.head?_cons, Option.some.injEq] at he
      rw [← he]
      rfl
  · intro i hi
    rw [gridSamples_length] at hi
    rw [wColumn_gridSamples]
    rw [List.getD_eq_getElem _ _ (by simpa using hi),
      List.getD_eq_getElem _ _ (by simp; omega)]
    simp only [List.getElem_map, List.getElem_range]
    push_cast
    ring
  · rw [wColumn_gridSamples, List.pairwise_map]
    refine List.Pairwise.imp_of_mem ?_ (List.pairwise_lt_range _)
    intro a b _ _ hab
    have : (a : ℚ) < b := by exact_mod_cast hab
    nlinarith
  · intro e he
    obtain ⟨k, hk, hek⟩ := mem_gridSamples rate stepW _ beginW e he
    refine ⟨beginW + k * stepW, ?_, grid_point_le endW stepW beginW hs k hk, hek⟩
    have : 0 ≤ (k : ℚ) * stepW := mul_nonneg (by positivity) (le_of_lt hs)
    linarith

end BSG

namespace BSG

variable {SPS : Type}

theorem gridCount_cast (endW stepW w : ℚ) :
    ((gridCount endW stepW w : ℕ) : ℤ) = max 0 (⌊(endW - w) / stepW⌋ + 1) := by
  unfold gridCount
  rw [Int.toNat_eq_max, max_comm]

theorem gridCount_cast_of_le (endW stepW w : ℚ) (hs : 0 < stepW) (h : w ≤ endW) :
    ((gridCount endW stepW w : ℕ) : ℤ) = ⌊(endW - w) / stepW⌋ + 1 := by
  have hx : 0 ≤ (endW - w) / stepW := div_nonneg (by linarith) (le_of_lt hs)
  have hf : 0 ≤ ⌊(endW - w) / stepW⌋ := Int.floor_nonneg.mpr hx
  rw [gridCount_cast, max_eq_right (by omega)]

/-- With a positive step and enough fuel, `CalculateSpectrum` of the current variant
returns the grid samples from `beginW` on. -/
theorem CalculateSpectrum_eq (sf : SpectralFunctions SPS) (c : Constants) (o : Options)
    (g : Generator SPS) (hs : 0 < stepW c o g) (fuel : ℕ)
    (hf : gridCount (endW c o g) (stepW c o g) (beginW c o) < fuel) :
    (CalculateSpectrum sf c o g fuel).map (fun g' => g'.spectrum) =
      some (gridSamples (CalculateDecayRate sf o g) (stepW c o g) (beginW c o)
        (gridCount (endW c o g) (stepW c o g) (beginW c o))) := by
  unfold CalculateSpectrum
  rw [spectrumLoop_eq _ _ _ hs fuel _ _ hf]
  simp

/-- With a positive step and enough fuel, `CalculateSpectrum` of the legacy variant
returns the member `spectrum` followed by the grid samples from `beginW` on. -/
theorem Legacy_CalculateSpectrum_eq (sf : Legacy.SpectralFunctions) (c : Constants)
    (o : Legacy.Options) (g : Legacy.Generator) (hs : 0 < Legacy.stepW c o) (fuel : ℕ)
    (hf : gridCount (Legacy.endW c o g) (Legacy.stepW c o) (Legacy.beginW c o) < fuel) :
    (Legacy.CalculateSpectrum sf c o g fuel).map (fun g' => g'.spectrum) =
      some (g.spectrum ++
        gridSamples (Legacy.CalculateDecayRate sf o g) (Legacy.stepW c o) (Legacy.beginW c o)
          (gridCount (Legacy.endW c o g) (Legacy.stepW c o) (Legacy.beginW c o))) := by
  unfold Legacy.CalculateSpectrum
  rw [spectrumLoop_eq _ _ _ hs fuel _ _ hf]
  simp

/-- A grid point lies at or below `endW` exactly when its index is below `gridCount`. -/
theorem lt_gridCount_iff (endW stepW w : ℚ) (hs : 0 < stepW) (k : ℕ) :
    k < gridCount endW stepW w ↔ w + k * stepW ≤ endW := by
  constructor
  · exact grid_point_le endW stepW w hs k
  · intro h
    unfold gridCount
    have h1 : ((k : ℤ) : ℚ) ≤ (endW - w) / stepW := by
      rw [le_div_iff₀ hs]
      push_cast
      linarith
    have h2 : (k : ℤ) ≤ ⌊(endW - w) / stepW⌋ := Int.le_floor.mpr h1
    omega

/-- The sample of index `i` of the grid samples is the grid point `w + i stepW` with the
pair that `rate` returns there. -/
theorem gridSamples_getD (rate : ℚ → ℚ × ℚ) (stepW : ℚ) :
    ∀ (n : ℕ) (w : ℚ) (i : ℕ), i < n →
      (gridSamples rate stepW w n).getD i [] =
        [w + i * stepW, (rate (w + i * stepW)).1, (rate (w + i * stepW)).2] := by
  intro n
  induction n with
  | zero => intro w i hi; omega
  | succ n ih =>
    intro w i hi
    cases i with
    | zero => simp [gridSamples]
    | succ j =>
      have hw : w + ((j + 1 : ℕ) : ℚ) * stepW = w + stepW + j * stepW := by
        push_cast; ring
      simp only [gridSamples, List.getD_cons_succ]
      rw [ih (w + stepW) j (by omega), hw]

/-- C9: for every positive `stepW` the grid loop of `CalculateSpectrum` ends and produces
exactly the grid samples: the sample of index i is at W = beginW + i stepW and carries
the pair that `CalculateDecayRate` returns there, and the indices are exactly those i
whose W is at most `endW`. Hence the first sample is at `beginW`, each next one is
`stepW` further, the W column is strictly ascending and lies in `[beginW, endW]`. The
current variant returns these samples; the legacy variant pushes them onto its member
`spectrum`. -/
theorem CalculateSpectrum_grid (sf : SpectralFunctions SPS) (c : Constants) (o : Options)
    (g : Generator SPS) (lsf : Legacy.SpectralFunctions) (lc : Constants)
    (lo : Legacy.Options) (lg : Legacy.Generator)
    (hs : 0 < stepW c o g) (hl : 0 < Legacy.stepW lc lo) :
    (∃ s : List (List ℚ),
      (∃ N, ∀ fuel, N ≤ fuel →
        (CalculateSpectrum sf c o g fuel).map (fun g' => g'.spectrum) = some s) ∧
      (∀ i : ℕ, i < s.length ↔ beginW c o + i * stepW c o g ≤ endW c o g) ∧
      (∀ i : ℕ, i < s.length →
        s.getD i [] =
          [beginW c o + i * stepW c o g,
           (CalculateDecayRate sf o g (beginW c o + i * stepW c o g)).1,
           (CalculateDecayRate sf o g (beginW c o + i * stepW c o g)).2]) ∧
      IsGrid (CalculateDecayRate sf o g) (beginW c o) (endW c o g) (stepW c o g) s) ∧
    (∃ s : List (List ℚ),
      (∃ N, ∀ fuel, N ≤ fuel →
        (Legacy.CalculateSpectrum lsf lc lo lg fuel).map (fun g' => g'.spectrum) =
          some (lg.spectrum ++ s)) ∧
      (∀ i : ℕ, i < s.length ↔
        Legacy.beginW lc lo + i * Legacy.stepW lc lo ≤ Legacy.endW lc lo lg) ∧
      (∀ i : ℕ, i < s.length →
        s.getD i [] =
          [Legacy.beginW lc lo + i * Legacy.stepW lc lo,
           (Legacy.CalculateDecayRate lsf lo lg
              (Legacy.beginW lc lo + i * Legacy.stepW lc lo)).1,
           (Legacy.CalculateDecayRate lsf lo lg
              (Legacy.beginW lc lo + i * Legacy.stepW lc lo)).2]) ∧
      IsGrid (Legacy.CalculateDecayRate lsf lo lg) (Legacy.beginW lc lo)
        (Legacy.endW lc lo lg) (Legacy.stepW lc lo) s) := by
  constructor
  · refine ⟨gridSamples (CalculateDecayRate sf o g) (stepW c o g) (beginW c o)
        (gridCount (endW c o g) (stepW c o g) (beginW c o)),
      ⟨gridCount (endW c o g) (stepW c o g) (beginW c o) + 1, ?_⟩, ?_, ?_,
      isGrid_gridSamples _ (beginW c o) (endW c o g) (stepW c o g) hs⟩
    · intro fuel hf
      exact CalculateSpectrum_eq sf c o g hs fuel (by omega)
    · intro i
      rw [gridSamples_length]
      exact lt_gridCount_iff _ _ _ hs i
    · intro i hi
      rw [gridSamples_length] at hi
      exact gridSamples_getD _ _ _ _ i hi
  · refine ⟨gridSamples (Legacy.CalculateDecayRate lsf lo lg) (Legacy.stepW lc lo)
        (Legacy.beginW lc lo)
        (gridCount (Legacy.endW lc lo lg) (Legacy.stepW lc lo) (Legacy.beginW lc lo)),
      ⟨gridCount (Legacy.endW lc lo lg) (Legacy.stepW lc lo) (Legacy.beginW lc lo) + 1, ?_⟩,
      ?_, ?_,
      isGrid_gridSamples _ (Legacy.beginW lc lo) (Legacy.endW lc lo lg)
        (Legacy.stepW lc lo) hl⟩
    · intro fuel hf
      exact Legacy_CalculateSpectrum_eq lsf lc lo lg hl fuel (by omega)
    · intro i
      rw [gridSamples_length]
      exact lt_gridCount_iff _ _ _ hl i
    · intro i hi
      rw [gridSamples_length] at hi
      exact gridSamples_getD _ _ _ _ i hi

/-- Witness of C9: the closed instances have the step 511 keV / 511 keV = 1. -/
theorem CalculateSpectrum_grid_witness :
    (0 < stepW exampleConstants exampleOptions exampleGenerator ∧
     0 < Legacy.stepW exampleConstants Legacy.exampleOptions) ∧
    (∃ s : List (List ℚ),
      (∃ N, ∀ fuel, N ≤ fuel →
        (CalculateSpectrum exampleSF exampleConstants exampleOptions exampleGenerator
          fuel).map (fun g' => g'.spectrum) = some s) ∧
      (∀ i : ℕ, i < s.length ↔
        beginW exampleConstants exampleOptions +
            i * stepW exampleConstants exampleOptions exampleGenerator ≤
          endW exampleConstants exampleOptions exampleGenerator) ∧
      (∀ i : ℕ, i < s.length →
        s.getD i [] =
          [beginW exampleConstants exampleOptions +
              i * stepW exampleConstants exampleOptions exampleGenerator,
           (CalculateDecayRate exampleSF exampleOptions exampleGenerator
              (beginW exampleConstants exampleOptions +
                i * stepW exampleConstants exampleOptions exampleGenerator)).1,
           (CalculateDecayRate exampleSF exampleOptions exampleGenerator
              (beginW exampleConstants exampleOptions +
                i * stepW exampleConstants exampleOptions exampleGenerator)).2]) ∧
      IsGrid (CalculateDecayRate exampleSF exampleOptions exampleGenerator)
        (beginW exampleConstants exampleOptions)
        (endW exampleConstants exampleOptions exampleGenerator)
        (stepW exampleConstants exampleOptions exampleGenerator) s) :=
  ⟨⟨by norm_num [stepW, exampleOptions, exampleConstants],
    by norm_num [Legacy.stepW, Legacy.exampleOptions, exampleConstants]⟩,
   (CalculateSpectrum_grid exampleSF exampleConstants exampleOptions exampleGenerator
     Legacy.exampleSF exampleConstants Legacy.exampleOptions Legacy.exampleGenerator
     (by norm_num [stepW, exampleOptions, exampleConstants])
     (by norm_num [Legacy.stepW, Legacy.exampleOptions, exampleConstants])).1⟩

/-- The spectrum of the closed instance: three samples at W = 1, 2, 3. -/
theorem CalculateSpectrum_example :
    (CalculateSpectrum exampleSF exampleConstants exampleOptions exampleGenerator 4).map
      (fun g' => g'.spectrum) = some [[1, 4, 0], [2, 2, 2], [3, 0, 4]] := by
  have hb : beginW exampleConstants exampleOptions = 1 := by
    norm_num [beginW, exampleOptions, exampleConstants]
  have he : endW exampleConstants exampleOptions exampleGenerator = 3 := by
    norm_num [endW, exampleOptions, exampleConstants]
  have hst : stepW exampleConstants exampleOptions exampleGenerator = 1 := by
    norm_num [stepW, exampleOptions, exampleConstants]
  have hr : ∀ W : ℚ, CalculateDecayRate exampleSF exampleOptions exampleGenerator W =
      (stdMax 0 (W * (3 - W) ^ 2), stdMax 0 ((3 - W + 1) * (3 - (3 - W + 1)) ^ 2)) := by
    intro W
    rw [CalculateDecayRate_eq_products]
    simp [electronFactors, neutrinoFactors, orderedProduct, exampleSF, exampleOptions,
      exampleGenerator]
  simp only [CalculateSpectrum, hb, he, hst, spectrumLoop, hr]
  norm_num [stdMax]

/-- C10, as stated, fails: from 2044 keV to 511 keV in steps of 511 keV (`beginW` = 5,
`endW` = 2, `stepW` = 1) the loop produces no sample, while floor((endW - beginW)/stepW)
+ 1 is -2. -/
theorem sampleCount_counterexample :
    0 < stepW exampleConstants { exampleOptions with Begin := 2044, End := 511 }
      exampleGenerator ∧
    (CalculateSpectrum exampleSF exampleConstants
        { exampleOptions with Begin := 2044, End := 511 } exampleGenerator 1).map
      (fun g' => g'.spectrum) = some [] ∧
    ⌊(endW exampleConstants { exampleOptions with Begin := 2044, End := 511 }
          exampleGenerator -
        beginW exampleConstants { exampleOptions with Begin := 2044, End := 511 }) /
      stepW exampleConstants { exampleOptions with Begin := 2044, End := 511 }
        exampleGenerator⌋ + 1 = -2 := by
  refine ⟨?_, ?_, ?_⟩
  · norm_num [stepW, exampleOptions, exampleConstants]
  · norm_num [CalculateSpectrum, spectrumLoop, beginW, endW, stepW, exampleOptions,
      exampleConstants]
  · norm_num [beginW, endW, stepW, exampleOptions, exampleConstants]

/-- C10, amended: for every positive `stepW` the number of samples that the grid loop of
`CalculateSpectrum` produces is max(0, floor((endW - beginW)/stepW) + 1); it is
floor((endW - beginW)/stepW) + 1 whenever `beginW` is at most `endW`. The current variant
returns these samples; the legacy variant pushes them onto its member `spectrum`. -/
theorem CalculateSpectrum_sampleCount (sf : SpectralFunctions SPS) (c : Constants)
    (o : Options) (g : Generator SPS) (lsf : Legacy.SpectralFunctions) (lc : Constants)
    (lo : Legacy.Options) (lg : Legacy.Generator)
    (hs : 0 < stepW c o g) (hl : 0 < Legacy.stepW lc lo) :
    (∃ s : List (List ℚ),
      (∃ N, ∀ fuel, N ≤ fuel →
        (CalculateSpectrum sf c o g fuel).map (fun g' => g'.spectrum) = some s) ∧
      (s.length : ℤ) = max 0 (⌊(endW c o g - beginW c o) / stepW c o g⌋ + 1) ∧
      (beginW c o ≤ endW c o g →
        (s.length : ℤ) = ⌊(endW c o g - beginW c o) / stepW c o g⌋ + 1)) ∧
    (∃ s : List (List ℚ),
      (∃ N, ∀ fuel, N ≤ fuel →
        (Legacy.CalculateSpectrum lsf lc lo lg fuel).map (fun g' => g'.spectrum) =
          some (lg.spectrum ++ s)) ∧
      (s.length : ℤ) =
        max 0 (⌊(Legacy.endW lc lo lg - Legacy.beginW lc lo) / Legacy.stepW lc lo⌋ + 1) ∧
      (Legacy.beginW lc lo ≤ Legacy.endW lc lo lg →
        (s.length : ℤ) =
          ⌊(Legacy.endW lc lo lg - Legacy.beginW lc lo) / Legacy.stepW lc lo⌋ + 1)) := by
  constructor
  · refine ⟨gridSamples (CalculateDecayRate sf o g) (stepW c o g) (beginW c o)
        (gridCount (endW c o g) (stepW c o g) (beginW c o)),
      ⟨gridCount (endW c o g) (stepW c o g) (beginW c o) + 1, ?_⟩, ?_, ?_⟩
    · intro fuel hf
      exact CalculateSpectrum_eq sf c o g hs fuel (by omega)
    · rw [gridSamples_length, gridCount_cast]
    · intro hle
      rw [gridSamples_length, gridCount_cast_of_le _ _ _ hs hle]
  · refine ⟨gridSamples (Legacy.CalculateDecayRate lsf lo lg) (Legacy.stepW lc lo)
        (Legacy.beginW lc lo)
        (gridCount (Legacy.endW lc lo lg) (Legacy.stepW lc lo) (Legacy.beginW lc lo)),
      ⟨gridCount (Legacy.endW lc lo lg) (Legacy.stepW lc lo) (Legacy.beginW lc lo) + 1, ?_⟩,
      ?_, ?_⟩
    · intro fuel hf
      exact Legacy_CalculateSpectrum_eq lsf lc lo lg hl fuel (by omega)
    · rw [gridSamples_length, gridCount_cast]
    · intro hle
      rw [gridSamples_length, gridCount_cast_of_le _ _ _ hl hle]

/-- Witness of C10 (amended): the closed instances have the step 1. -/
theorem CalculateSpectrum_sampleCount_witness :
    (0 < stepW exampleConstants exampleOptions exampleGenerator ∧
     0 < Legacy.stepW exampleConstants Legacy.exampleOptions) ∧
    (∃ s : List (List ℚ),
      (∃ N, ∀ fuel, N ≤ fuel →
        (CalculateSpectrum exampleSF exampleConstants exampleOptions exampleGenerator
          fuel).map (fun g' => g'.spectrum) = some s) ∧
      (s.length : ℤ) =
        max 0 (⌊(endW exampleConstants exampleOptions exampleGenerator -
          beginW exampleConstants exampleOptions) /
          stepW exampleConstants exampleOptions exampleGenerator⌋ + 1) ∧
      (beginW exampleConstants exampleOptions ≤
          endW exampleConstants exampleOptions exampleGenerator →
        (s.length : ℤ) =
          ⌊(endW exampleConstants exampleOptions exampleGenerator -
            beginW exampleConstants exampleOptions) /
            stepW exampleConstants exampleOptions exampleGenerator⌋ + 1)) :=
  ⟨⟨by norm_num [stepW, exampleOptions, exampleConstants],
    by norm_num [Legacy.stepW, Legacy.exampleOptions, exampleConstants]⟩,
   (CalculateSpectrum_sampleCount exampleSF exampleConstants exampleOptions exampleGenerator
     Legacy.exampleSF exampleConstants Legacy.exampleOptions Legacy.exampleGenerator
     (by norm_num [stepW, exampleOptions, exampleConstants])
     (by norm_num [Legacy.stepW, Legacy.exampleOptions, exampleConstants])).1⟩

end BSG

/-! ## Helper lemmas for the legacy variant -/

namespace Legacy

open BSG

/-- The code of the legacy `CalculateDecayRate` computes the ordered products of the
applied factors, without a floor. -/
theorem CalculateDecayRate_eq_products_legacy (sf : SpectralFunctions) (o : Options)
    (g : Generator) (W : ℚ) :
    CalculateDecayRate sf o g W =
      (orderedProduct (electronFactors sf o g W),
       orderedProduct (neutrinoFactors sf o g (g.W0 - W + 1))) := by
  simp only [CalculateDecayRate, electronFactors, neutrinoFactors, orderedProduct,
    List.foldl_append, foldl_toggle, fst_ite, snd_ite, mul_ite]
  simp only [ite_and, and_self]

end Legacy


/-! ## Degenerate steps and repeated calls -/

namespace BSG

variable {SPS : Type}

/-- With a step that is not positive and a current W that is at most `endW`, the grid
loop runs out of every fuel: it does not end. -/
theorem spectrumLoop_none (rate : ℚ → ℚ × ℚ) (endW stepW : ℚ) (hs : stepW ≤ 0) :
    ∀ (fuel : ℕ) (w : ℚ) (acc : List (List ℚ)), w ≤ endW →
      spectrumLoop rate endW stepW fuel w acc = none := by
  intro fuel
  induction fuel with
  | zero => intro w acc _; rfl
  | succ n ih =>
    intro w acc hw
    unfold spectrumLoop
    simp only [hw, if_true]
    exact ih (w + stepW) _ (by linarith)

/-- With a step that is not positive and `beginW` at most `endW`, `CalculateSpectrum`
does not return, in either variant. -/
theorem CalculateSpectrum_none (sf : SpectralFunctions SPS) (c : Constants) (o : Options)
    (g : Generator SPS) (hs : stepW c o g ≤ 0) (hb : beginW c o ≤ endW c o g) (fuel : ℕ) :
    CalculateSpectrum sf c o g fuel = none := by
  unfold CalculateSpectrum
  rw [spectrumLoop_none _ _ _ hs fuel _ _ hb]
  rfl

theorem Legacy_CalculateSpectrum_none (sf : Legacy.SpectralFunctions) (c : Constants)
    (o : Legacy.Options) (g : Legacy.Generator) (hs : Legacy.stepW c o ≤ 0)
    (hb : Legacy.beginW c o ≤ Legacy.endW c o g) (fuel : ℕ) :
    Legacy.CalculateSpectrum sf c o g fuel = none := by
  unfold Legacy.CalculateSpectrum
  rw [spectrumLoop_none _ _ _ hs fuel _ _ hb]
  rfl

/-- C11, the code at the failing input: from 0 keV to 1022 keV with the step size 0 the
grid loop of `CalculateSpectrum` runs out of every fuel, in the current and in the legacy
variant: it does not end with zero or one sample, it does not end. -/
theorem CalculateSpectrum_zero_step_diverges :
    (∀ fuel : ℕ, CalculateSpectrum exampleSF exampleConstants
      { exampleOptions with StepSize := 0 } exampleGenerator fuel = none) ∧
    (∀ fuel : ℕ, Legacy.CalculateSpectrum Legacy.exampleSF exampleConstants
      { Legacy.exampleOptions with step := 0 } Legacy.exampleGenerator fuel = none) := by
  constructor
  · intro fuel
    apply CalculateSpectrum_none
    · norm_num [stepW, exampleOptions, exampleConstants]
    · norm_num [beginW, endW, exampleOptions, exampleConstants]
  · intro fuel
    apply Legacy_CalculateSpectrum_none
    · norm_num [Legacy.stepW, Legacy.exampleOptions, exampleConstants]
    · norm_num [Legacy.beginW, Legacy.endW, Legacy.exampleOptions, exampleConstants]

/-- The decay rate of the current variant does not read the member `spectrum`. -/
theorem CalculateDecayRate_spectrum (sf : SpectralFunctions SPS) (o : Options)
    (g : Generator SPS) (s : List (List ℚ)) :
    CalculateDecayRate sf o { g with spectrum := s } = CalculateDecayRate sf o g := rfl

/-- The decay rate of the legacy variant does not read the member `spectrum`. -/
theorem Legacy_CalculateDecayRate_spectrum (sf : Legacy.SpectralFunctions)
    (o : Legacy.Options) (g : Legacy.Generator) (s : List (List ℚ)) :
    Legacy.CalculateDecayRate sf o { g with spectrum := s } = Legacy.CalculateDecayRate sf o g :=
  rfl

/-- In the current variant a second call of `CalculateSpectrum` on the state that the
first call left returns what the first call returned. -/
theorem CalculateSpectrum_rebuild (sf : SpectralFunctions SPS) (c : Constants) (o : Options)
    (g : Generator SPS) (fuel : ℕ) :
    (CalculateSpectrum sf c o g fuel).bind (fun g1 => CalculateSpectrum sf c o g1 fuel) =
      CalculateSpectrum sf c o g fuel := by
  unfold CalculateSpectrum
  cases h : spectrumLoop (CalculateDecayRate sf o g) (endW c o g) (stepW c o g) fuel
      (beginW c o) [] with
  | none => rfl
  | some s =>
    simp only [Option.map_some', Option.some_bind]
    have e1 : CalculateDecayRate sf o { g with spectrum := s } = CalculateDecayRate sf o g :=
      rfl
    have e2 : endW c o { g with spectrum := s } = endW c o g := rfl
    have e3 : stepW c o { g with spectrum := s } = stepW c o g := rfl
    rw [e1, e2, e3, h]
    rfl

/-- The grid loop of the legacy closed instance appends three samples to the spectrum. -/
theorem Legacy_spectrumLoop_example (acc : List (List ℚ)) :
    spectrumLoop (Legacy.CalculateDecayRate Legacy.exampleSF Legacy.exampleOptions
        Legacy.exampleGenerator)
      (Legacy.endW exampleConstants Legacy.exampleOptions Legacy.exampleGenerator)
      (Legacy.stepW exampleConstants Legacy.exampleOptions) 4
      (Legacy.beginW exampleConstants Legacy.exampleOptions) acc =
      some (acc ++ [[1, 4, 0], [2, 2, 2], [3, 0, 4]]) := by
  have hb : Legacy.beginW exampleConstants Legacy.exampleOptions = 1 := by
    norm_num [Legacy.beginW, Legacy.exampleOptions, exampleConstants]
  have he : Legacy.endW exampleConstants Legacy.exampleOptions Legacy.exampleGenerator = 3 := by
    norm_num [Legacy.endW, Legacy.exampleOptions, exampleConstants]
  have hst : Legacy.stepW exampleConstants Legacy.exampleOptions = 1 := by
    norm_num [Legacy.stepW, Legacy.exampleOptions, exampleConstants]
  have hr : ∀ W : ℚ, Legacy.CalculateDecayRate Legacy.exampleSF Legacy.exampleOptions
      Legacy.exampleGenerator W =
      (W * (3 - W) ^ 2, (3 - W + 1) * (3 - (3 - W + 1)) ^ 2) := by
    intro W
    rw [Legacy.CalculateDecayRate_eq_products_legacy]
    simp [Legacy.electronFactors, Legacy.neutrinoFactors, orderedProduct, Legacy.exampleSF,
      Legacy.exampleOptions, Legacy.exampleGenerator]
  simp only [hb, he, hst, spectrumLoop, hr]
  norm_num

/-- C12, the code at the failing input: in the legacy variant the first call of
`CalculateSpectrum` on the closed instance returns three samples, and the second call, on
the state that the first call left, returns six: the three samples of the first call
followed by the same three samples again. -/
theorem Legacy_CalculateSpectrum_twice :
    (Legacy.CalculateSpectrum Legacy.exampleSF exampleConstants Legacy.exampleOptions
      Legacy.exampleGenerator 4).map (fun g1 => g1.spectrum) =
      some [[1, 4, 0], [2, 2, 2], [3, 0, 4]] ∧
    ((Legacy.CalculateSpectrum Legacy.exampleSF exampleConstants Legacy.exampleOptions
      Legacy.exampleGenerator 4).bind
        (fun g1 => Legacy.CalculateSpectrum Legacy.exampleSF exampleConstants
          Legacy.exampleOptions g1 4)).map (fun g2 => g2.spectrum) =
      some [[1, 4, 0], [2, 2, 2], [3, 0, 4], [1, 4, 0], [2, 2, 2], [3, 0, 4]] := by
  have h1 : Legacy.CalculateSpectrum Legacy.exampleSF exampleConstants Legacy.exampleOptions
      Legacy.exampleGenerator 4 =
      some { Legacy.exampleGenerator with spectrum := [[1, 4, 0], [2, 2, 2], [3, 0, 4]] } := by
    unfold Legacy.CalculateSpectrum
    rw [Legacy_spectrumLoop_example]
    rfl
  have h2 : Legacy.CalculateSpectrum Legacy.exampleSF exampleConstants Legacy.exampleOptions
      { Legacy.exampleGenerator with spectrum := [[1, 4, 0], [2, 2, 2], [3, 0, 4]] } 4 =
      some { Legacy.exampleGenerator with
        spectrum := [[1, 4, 0], [2, 2, 2], [3, 0, 4], [1, 4, 0], [2, 2, 2], [3, 0, 4]] } := by
    unfold Legacy.CalculateSpectrum
    have e1 : Legacy.CalculateDecayRate Legacy.exampleSF Legacy.exampleOptions
        { Legacy.exampleGenerator with spectrum := [[1, 4, 0], [2, 2, 2], [3, 0, 4]] } =
        Legacy.CalculateDecayRate Legacy.exampleSF Legacy.exampleOptions
          Legacy.exampleGenerator := rfl
    have e2 : Legacy.endW exampleConstants Legacy.exampleOptions
        { Legacy.exampleGenerator with spectrum := [[1, 4, 0], [2, 2, 2], [3, 0, 4]] } =
        Legacy.endW exampleConstants Legacy.exampleOptions Legacy.exampleGenerator := rfl
    rw [e1, e2, Legacy_spectrumLoop_example]
    rfl
  rw [h1]
  refine ⟨rfl, ?_⟩
  rw [Option.some_bind, h2]
  rfl

end BSG

/-! ## The matrix elements -/

namespace BSG

theorem Dbl_mul_one (x : Dbl) : Dbl.mul x (Dbl.fin 1) = x := by
  cases x with
  | fin x => simp [Dbl.mul]
  | inf s =>
    have h : decide ((1 : ℚ) < 0) = false := by norm_num
    simp [Dbl.mul, h]
  | nan => simp [Dbl.mul]

theorem Dbl_isnan_iff (x : Dbl) : x.isnan = true ↔ x = Dbl.nan := by
  cases x <;> simp [Dbl.isnan]

/-- C13, the code at the failing input: without any override, with M101 = 0 and
M121 = 0 and with the manager returning b/Ac = 1/2 and d/Ac = 1/4, the ratio 0/0 is NaN,
the NaN rule sets M101 to 1, and the zero-M101 rule no longer applies: `bAc` and `dAc`
keep 1/2 and 1/4, and `fb` and `fd` are 10 and 5 for gA = 1 and A = 20. -/
theorem GetMatrixElements_zero_over_zero :
    computedM101 exampleMatrixInput = Dbl.fin 0 ∧
    computedRatioM121 exampleMatrixInput = Dbl.nan ∧
    GetMatrixElements exampleMatrixInput (Dbl.fin 1) 20 =
      { M101 := Dbl.fin 1, ratioM121 := Dbl.fin 0, bAc := Dbl.fin (1 / 2),
        dAc := Dbl.fin (1 / 4), fc1 := Dbl.fin 1, fb := Dbl.fin 10, fd := Dbl.fin 5 } := by
  refine ⟨rfl, ?_, ?_⟩
  · simp [computedRatioM121, exampleMatrixInput, Dbl.div]
  · simp [GetMatrixElements, computedM101, computedRatioM121, computedbAc, computeddAc,
      exampleMatrixInput, Dbl.div, Dbl.mul, Dbl.isnan]
    norm_num

/-- When M101 is 0, no `Spectrum.Lambda` exists and M121/M101 is not NaN, the zero-M101
rule applies: `bAc`, `dAc` and `ratioM121` are 0, M101 is 1 and `fc1` is gA. -/
theorem GetMatrixElements_zero_M101 (inp : MatrixElementInput) (gA : Dbl) (A : ℤ)
    (hL : inp.Lambda = none) (h0 : inp.M101 = Dbl.fin 0)
    (hr : (Dbl.div inp.M121 inp.M101).isnan = false) :
    (GetMatrixElements inp gA A).bAc = Dbl.fin 0 ∧
    (GetMatrixElements inp gA A).dAc = Dbl.fin 0 ∧
    (GetMatrixElements inp gA A).ratioM121 = Dbl.fin 0 ∧
    (GetMatrixElements inp gA A).M101 = Dbl.fin 1 ∧
    (GetMatrixElements inp gA A).fc1 = gA := by
  rw [h0] at hr
  simp [GetMatrixElements, computedM101, computedRatioM121, hL, h0, hr, Dbl_mul_one]

/-- C14: after `GetMatrixElements` none of `bAc`, `dAc` and `ratioM121` is NaN; each one
that was NaN is 0; each one that was not NaN is unchanged unless the zero-M101 rule
applies; and when the computed ratio was NaN, M101 is 1 and `fc1` is gA. -/
theorem GetMatrixElements_no_nan (inp : MatrixElementInput) (gA : Dbl) (A : ℤ) :
    ((GetMatrixElements inp gA A).bAc ≠ Dbl.nan ∧
      (GetMatrixElements inp gA A).dAc ≠ Dbl.nan ∧
      (GetMatrixElements inp gA A).ratioM121 ≠ Dbl.nan) ∧
    ((computedbAc inp = Dbl.nan → (GetMatrixElements inp gA A).bAc = Dbl.fin 0) ∧
      (computeddAc inp = Dbl.nan → (GetMatrixElements inp gA A).dAc = Dbl.fin 0) ∧
      (computedRatioM121 inp = Dbl.nan →
        (GetMatrixElements inp gA A).ratioM121 = Dbl.fin 0)) ∧
    ((computedbAc inp ≠ Dbl.nan → ¬ zeroM101RuleApplies inp →
        (GetMatrixElements inp gA A).bAc = computedbAc inp) ∧
      (computeddAc inp ≠ Dbl.nan → ¬ zeroM101RuleApplies inp →
        (GetMatrixElements inp gA A).dAc = computeddAc inp) ∧
      (computedRatioM121 inp ≠ Dbl.nan → ¬ zeroM101RuleApplies inp →
        (GetMatrixElements inp gA A).ratioM121 = computedRatioM121 inp)) ∧
    (computedRatioM121 inp = Dbl.nan →
      (GetMatrixElements inp gA A).M101 = Dbl.fin 1 ∧
      (GetMatrixElements inp gA A).fc1 = gA) := by
  simp only [GetMatrixElements, zeroM101RuleApplies]
  generalize computedM101 inp = m
  generalize computedRatioM121 inp = r
  generalize computedbAc inp = b
  generalize computeddAc inp = d
  by_cases hm : m = Dbl.fin 0 <;>
    cases r <;> cases b <;> cases d <;> simp [Dbl.isnan, hm, Dbl_mul_one]

/-- Witness of C14: at the closed instance the computed ratio is NaN and the two other
values are not. -/
theorem GetMatrixElements_no_nan_witness :
    computedRatioM121 exampleMatrixInput = Dbl.nan ∧
    (GetMatrixElements exampleMatrixInput (Dbl.fin 1) 20).ratioM121 = Dbl.fin 0 ∧
    (GetMatrixElements exampleMatrixInput (Dbl.fin 1) 20).M101 = Dbl.fin 1 ∧
    (GetMatrixElements exampleMatrixInput (Dbl.fin 1) 20).fc1 = Dbl.fin 1 ∧
    (GetMatrixElements exampleMatrixInput (Dbl.fin 1) 20).bAc =
      computedbAc exampleMatrixInput := by
  have hr : computedRatioM121 exampleMatrixInput = Dbl.nan := by
    simp [computedRatioM121, exampleMatrixInput, Dbl.div]
  have hb : computedbAc exampleMatrixInput ≠ Dbl.nan := by
    simp [computedbAc, exampleMatrixInput]
  have hz : ¬ zeroM101RuleApplies exampleMatrixInput := by
    simp [zeroM101RuleApplies, hr, Dbl.isnan]
  have h := GetMatrixElements_no_nan exampleMatrixInput (Dbl.fin 1) 20
  exact ⟨hr, h.2.1.2.2 hr, (h.2.2.2 hr).1, (h.2.2.2 hr).2, h.2.2.1.1 hb hz⟩

end BSG

/-! ## The endpoint energy -/

namespace BSG

variable {SPS : Type}

/-- The recoil-corrected endpoint `w - (w² - 1)/2/K` exceeds 1 exactly for `1 < w < 2K - 1`,
when `K` is at least 1. -/
theorem recoil_corrected_gt_one (w K : ℚ) (hK : 1 ≤ K) :
    1 < w - (w * w - 1) / 2 / K ↔ 1 < w ∧ w < 2 * K - 1 := by
  have hK0 : 0 < K := by linarith
  have key : w - (w * w - 1) / 2 / K - 1 = (w - 1) * (2 * K - 1 - w) / (2 * K) := by
    field_simp
    ring
  have h2K : 0 < 2 * K := by linarith
  constructor
  · intro h
    have h1 : 0 < (w - 1) * (2 * K - 1 - w) / (2 * K) := by
      rw [← key]; linarith
    have h2 : 0 < (w - 1) * (2 * K - 1 - w) := by
      have := mul_pos h1 h2K
      rwa [div_mul_cancel₀ _ (ne_of_gt h2K)] at this
    by_contra hc
    rw [not_and_or] at hc
    rcases hc with hc | hc
    · have ha : w - 1 ≤ 0 := by linarith
      have hb : 0 ≤ 2 * K - 1 - w := by linarith
      nlinarith
    · have ha : 2 * K - 1 - w ≤ 0 := by linarith
      have hb : 0 ≤ w - 1 := by linarith
      nlinarith
  · rintro ⟨h1, h2⟩
    have h3 : 0 < (w - 1) * (2 * K - 1 - w) / (2 * K) :=
      div_pos (mul_pos (by linarith) (by linarith)) h2K
    rw [← key] at h3
    linarith

/-- C15, as stated, fails: for an electron transition with Q-value 0, no deficit and no
excitation energies, `W0` is exactly 1, in the current and in the legacy variant; for a
positron transition with Q-value 511 keV it is below 1. -/
theorem W0_counterexample :
    InitializeConstants_W0 exampleConstants BetaType.BETA_MINUS 0 0 0 0 20 = 1 ∧
    Legacy.Generator_W0 exampleConstants BetaType.BETA_MINUS 0 20 = 1 ∧
    InitializeConstants_W0 exampleConstants BetaType.BETA_PLUS 511 0 0 0 20 < 1 ∧
    ¬ (1 < InitializeConstants_W0 exampleConstants BetaType.BETA_MINUS 0 0 0 0 20) := by
  have h1 : InitializeConstants_W0 exampleConstants BetaType.BETA_MINUS 0 0 0 0 20 = 1 := by
    norm_num [InitializeConstants_W0, W0BeforeRecoil, exampleConstants]
  refine ⟨h1, ?_, ?_, ?_⟩
  · norm_num [Legacy.Generator_W0, Legacy.W0BeforeRecoil, exampleConstants]
  · have hne : ¬ (BetaType.BETA_PLUS = BetaType.BETA_MINUS) := by decide
    simp only [InitializeConstants_W0, W0BeforeRecoil, exampleConstants, hne, if_false]
    norm_num
  · rw [h1]; norm_num

/-- C15, amended: `W0` is the endpoint before recoil, w, minus (w² - 1)/(2 A M/m); for
A ≥ 1 and 0 < m ≤ M (electron and nucleon mass) it exceeds 1 exactly when
1 < w < 2 A M/m - 1; in the legacy variant M/m is the literal 1837.4. -/
theorem W0_gt_one_iff (c : Constants) (betaType : BetaType)
    (QValue atomicEnergyDeficit motherExcitationEn daughterExcitationEn : ℚ) (A : ℤ)
    (hA : 1 ≤ A) (hm : 0 < c.ELECTRON_MASS_KEV)
    (hM : c.ELECTRON_MASS_KEV ≤ c.NUCLEON_MASS_KEV) :
    (1 < InitializeConstants_W0 c betaType QValue atomicEnergyDeficit motherExcitationEn
        daughterExcitationEn A ↔
      1 < W0BeforeRecoil c betaType QValue atomicEnergyDeficit motherExcitationEn
          daughterExcitationEn ∧
      W0BeforeRecoil c betaType QValue atomicEnergyDeficit motherExcitationEn
          daughterExcitationEn <
        2 * ((A : ℚ) * (c.NUCLEON_MASS_KEV / c.ELECTRON_MASS_KEV)) - 1) ∧
    (1 < Legacy.Generator_W0 c betaType QValue A ↔
      1 < Legacy.W0BeforeRecoil c betaType QValue ∧
      Legacy.W0BeforeRecoil c betaType QValue < 2 * ((A : ℚ) * (9187 / 5)) - 1) := by
  have hA1 : (1 : ℚ) ≤ (A : ℚ) := by exact_mod_cast hA
  have hA0 : (0 : ℚ) < (A : ℚ) := by linarith
  have hr : 1 ≤ c.NUCLEON_MASS_KEV / c.ELECTRON_MASS_KEV := by
    rw [le_div_iff₀ hm]; linarith
  have hr0 : 0 < c.NUCLEON_MASS_KEV / c.ELECTRON_MASS_KEV := by linarith
  constructor
  · have hK : 1 ≤ (A : ℚ) * (c.NUCLEON_MASS_KEV / c.ELECTRON_MASS_KEV) := by nlinarith
    rw [← recoil_corrected_gt_one _ _ hK]
    unfold InitializeConstants_W0
    simp only [div_div, mul_assoc]
  · have hK : 1 ≤ (A : ℚ) * (9187 / 5) := by nlinarith
    rw [← recoil_corrected_gt_one _ _ hK]
    unfold Legacy.Generator_W0
    simp only [div_div, mul_assoc]

/-- Witness of C15 (amended): the closed constants with A = 20. -/
theorem W0_gt_one_iff_witness :
    (1 < InitializeConstants_W0 exampleConstants BetaType.BETA_MINUS 511 0 0 0 20 ↔
      1 < W0BeforeRecoil exampleConstants BetaType.BETA_MINUS 511 0 0 0 ∧
      W0BeforeRecoil exampleConstants BetaType.BETA_MINUS 511 0 0 0 <
        2 * (((20 : ℤ) : ℚ) *
          (exampleConstants.NUCLEON_MASS_KEV / exampleConstants.ELECTRON_MASS_KEV)) - 1) :=
  (W0_gt_one_iff exampleConstants BetaType.BETA_MINUS 511 0 0 0 20 (by norm_num)
    (by norm_num [exampleConstants]) (by norm_num [exampleConstants])).1

end BSG

/-! ## The exchange parameters -/

namespace BSG

variable {SPS : Type}

/-- The loop of `LoadExchangeParameters` changes `exPars` only: `Z` and `betaType` stay. -/
theorem exchangeLoop_keeps (rows : List ExchangeRow) :
    ∀ g : Generator SPS,
      (LoadExchangeParameters (some rows) g).Z = g.Z ∧
      (LoadExchangeParameters (some rows) g).betaType = g.betaType := by
  induction rows with
  | nil => intro g; exact ⟨rfl, rfl⟩
  | cons r rs ih =>
    intro g
    simp only [LoadExchangeParameters, List.foldl_cons] at ih ⊢
    split
    · exact ih _
    · exact ih _

/-- The loop of `LoadExchangeParameters` leaves in `exPars` the coefficients of the last
row whose z is Z - betaType, and leaves `exPars` as it was when there is no such row. -/
theorem exchangeLoop_exPars (rows : List ExchangeRow) :
    ∀ g : Generator SPS,
      (LoadExchangeParameters (some rows) g).exPars =
        match (rows.filter
          (fun r => decide (r.z = ((g.Z - g.betaType.toInt : ℤ) : ℚ)))).getLast? with
        | some r => r.coefficients
        | none => g.exPars := by
  induction rows using List.reverseRecOn with
  | nil => intro g; rfl
  | append_singleton rs r ih =>
    intro g
    have hk := exchangeLoop_keeps rs g
    have hstep : LoadExchangeParameters (some (rs ++ [r])) g =
        (if r.z = (((LoadExchangeParameters (some rs) g).Z -
            (LoadExchangeParameters (some rs) g).betaType.toInt : ℤ) : ℚ) then
          { LoadExchangeParameters (some rs) g with
            exPars := [r.a, r.b, r.c, r.d, r.e, r.f, r.g, r.h, r.i] }
        else LoadExchangeParameters (some rs) g) := by
      simp only [LoadExchangeParameters, List.foldl_append, List.foldl_cons, List.foldl_nil]
    have ihg := ih g
    rw [hstep, hk.1, hk.2, List.filter_append]
    generalize ((g.Z - g.betaType.toInt : ℤ) : ℚ) = q at ihg ⊢
    by_cases hz : r.z = q
    · simp [hz, ExchangeRow.coefficients]
    · simp [hz, ihg]

/-- C16: for every readable exchange table, `LoadExchangeParameters` of the current
variant leaves `exPars` equal to the nine coefficients of the last row whose z equals
daughter Z - betaType when there is such a row, and rows with another z never modify
`exPars`: without a matching row `exPars` is unchanged. -/
theorem LoadExchangeParameters_last_match (rows : List ExchangeRow) (g : Generator SPS) :
    (LoadExchangeParameters (some rows) g).exPars =
      (match (rows.filter
          (fun r => decide (r.z = ((g.Z - g.betaType.toInt : ℤ) : ℚ)))).getLast? with
        | some r => r.coefficients
        | none => g.exPars) ∧
    LoadExchangeParameters (some (rows.filter
        (fun r => decide (r.z ≠ ((g.Z - g.betaType.toInt : ℤ) : ℚ))))) g = g := by
  refine ⟨exchangeLoop_exPars rows g, ?_⟩
  simp only [LoadExchangeParameters]
  induction rows with
  | nil => rfl
  | cons r rs ih =>
    by_cases hz : r.z = ((g.Z - g.betaType.toInt : ℤ) : ℚ)
    · rw [List.filter_cons_of_neg (by simpa using hz)]
      exact ih
    · rw [List.filter_cons_of_pos (by simpa using hz), List.foldl_cons, if_neg hz]
      exact ih

/-- The closed instance of C16: daughter Z = 10 and β+ select the rows with z = 11; the
last of them gives `exPars`. -/
theorem LoadExchangeParameters_example :
    (LoadExchangeParameters (some exampleTable) exampleGenerator).exPars =
      [9, 8, 7, 6, 5, 4, 3, 2, 1] := by
  simp [LoadExchangeParameters, exampleTable, exampleGenerator, BetaType.toInt]
  norm_num

/-- C17, the code at every input: the legacy `LoadExchangeParameters` never modifies
`exPars`, whatever the table holds, because the comparison `Z == Z - fBetaType` reads the
local `Z` of the row on both sides; on the closed table, which has rows with
Z = 11 = daughter Z - betaType, `exPars` stays all-zero. -/
theorem Legacy_LoadExchangeParameters_never_loads :
    (∀ (table : Option (List ExchangeRow)) (g : Legacy.Generator),
      Legacy.LoadExchangeParameters table g = g) ∧
    ((Legacy.exampleGenerator.Z - Legacy.exampleGenerator.fBetaType.toInt : ℤ) : ℚ) = 11 ∧
    (Legacy.LoadExchangeParameters (some exampleTable) Legacy.exampleGenerator).exPars =
      [0, 0, 0, 0, 0, 0, 0, 0, 0] := by
  have hall : ∀ (table : Option (List ExchangeRow)) (g : Legacy.Generator),
      Legacy.LoadExchangeParameters table g = g := by
    intro table g
    cases table with
    | none => rfl
    | some rows =>
      simp only [Legacy.LoadExchangeParameters]
      induction rows with
      | nil => rfl
      | cons r rs ih =>
        have hne : ¬ (r.z = r.z - ((g.fBetaType.toInt : ℤ) : ℚ)) := by
          intro h
          have h0 : ((g.fBetaType.toInt : ℤ) : ℚ) = 0 := by linarith
          cases hb : g.fBetaType <;> simp [hb, BetaType.toInt] at h0
        simpa [List.foldl_cons, hne] using ih
  refine ⟨hall, ?_, ?_⟩
  · norm_num [Legacy.exampleGenerator, BetaType.toInt]
  · rw [hall]
    rfl

end BSG

/-! ## The legacy decay rate, the mirror symmetry and the step count -/

namespace BSG

variable {SPS : Type}

theorem orderedProduct_nonneg (fs : List ℚ) (h : ∀ f ∈ fs, 0 ≤ f) : 0 ≤ orderedProduct fs := by
  unfold orderedProduct
  have key : ∀ (l : List ℚ) (acc : ℚ), 0 ≤ acc → (∀ f ∈ l, 0 ≤ f) →
      0 ≤ List.foldl (fun a f => a * f) acc l := by
    intro l
    induction l with
    | nil => intro acc ha _; simpa using ha
    | cons x xs ih =>
      intro acc ha hl
      simp only [List.foldl_cons]
      exact ih (acc * x) (mul_nonneg ha (hl x (List.mem_cons_self x xs)))
        (fun f hf => hl f (List.mem_cons_of_mem x hf))
  exact key fs 1 (by norm_num) h

/-- C18, the code at the failing input: the legacy `CalculateDecayRate` has no floor; with
only the phase space applied and W = -2 the returned rate is the phase-space value -50,
which is below 0. -/
theorem Legacy_rate_negative :
    (Legacy.CalculateDecayRate Legacy.exampleSF Legacy.exampleOptions
      Legacy.exampleGenerator (-2)).1 = -50 ∧
    ¬ (0 ≤ (Legacy.CalculateDecayRate Legacy.exampleSF Legacy.exampleOptions
      Legacy.exampleGenerator (-2)).1) := by
  have h : (Legacy.CalculateDecayRate Legacy.exampleSF Legacy.exampleOptions
      Legacy.exampleGenerator (-2)).1 = -50 := by
    simp only [Legacy.CalculateDecayRate_eq_products_legacy]
    norm_num [Legacy.electronFactors, orderedProduct, Legacy.exampleSF, Legacy.exampleOptions,
      Legacy.exampleGenerator]
  refine ⟨h, ?_⟩
  rw [h]
  norm_num

/-- The legacy `CalculateDecayRate` returns the ordered products of the applied factors
as they are, without a floor; the rate and the neutrino rate are at least 0 whenever every
applied factor of the branch is at least 0. -/
theorem Legacy_rate_products (sf : Legacy.SpectralFunctions) (o : Legacy.Options)
    (g : Legacy.Generator) (W : ℚ)
    (he : ∀ f ∈ Legacy.electronFactors sf o g W, 0 ≤ f)
    (hn : ∀ f ∈ Legacy.neutrinoFactors sf o g (g.W0 - W + 1), 0 ≤ f) :
    (Legacy.CalculateDecayRate sf o g W).1 =
      orderedProduct (Legacy.electronFactors sf o g W) ∧
    (Legacy.CalculateDecayRate sf o g W).2 =
      orderedProduct (Legacy.neutrinoFactors sf o g (g.W0 - W + 1)) ∧
    0 ≤ (Legacy.CalculateDecayRate sf o g W).1 ∧
    0 ≤ (Legacy.CalculateDecayRate sf o g W).2 := by
  simp only [Legacy.CalculateDecayRate_eq_products_legacy, true_and]
  exact ⟨orderedProduct_nonneg _ he, orderedProduct_nonneg _ hn⟩

/-- The closed instance of the legacy products: at W = 2 the only applied factor is the
phase space, 2 in both branches. -/
theorem Legacy_rate_products_example :
    (Legacy.CalculateDecayRate Legacy.exampleSF Legacy.exampleOptions
        Legacy.exampleGenerator 2).1 =
      orderedProduct (Legacy.electronFactors Legacy.exampleSF Legacy.exampleOptions
        Legacy.exampleGenerator 2) ∧
    0 ≤ (Legacy.CalculateDecayRate Legacy.exampleSF Legacy.exampleOptions
        Legacy.exampleGenerator 2).1 :=
  have h := Legacy_rate_products Legacy.exampleSF Legacy.exampleOptions
    Legacy.exampleGenerator 2
    (by
      intro f hf
      simp [Legacy.electronFactors, Legacy.exampleSF, Legacy.exampleOptions,
        Legacy.exampleGenerator] at hf
      rw [hf]; norm_num)
    (by
      intro f hf
      simp [Legacy.neutrinoFactors, Legacy.exampleSF, Legacy.exampleOptions,
        Legacy.exampleGenerator] at hf
      rw [hf]; norm_num)
  ⟨h.1, h.2.2.1⟩

/-- With the radiative correction disabled the neutrino branch applies the factors of
the electron branch. -/
theorem neutrinoFactors_eq_electronFactors (sf : SpectralFunctions SPS) (o : Options)
    (g : Generator SPS) (x : ℚ) (h : o.Radiative = false) :
    neutrinoFactors sf o g x = electronFactors sf o g x := by
  simp [neutrinoFactors, electronFactors, h]

/-- C19: in the current variant with `Spectrum.Radiative` disabled the two outputs are
mirror images under W -> W0 - W + 1: the neutrino rate at W is the rate at W0 - W + 1, and
the rate at W is the neutrino rate at W0 - W + 1. -/
theorem CalculateDecayRate_mirror (sf : SpectralFunctions SPS) (o : Options)
    (g : Generator SPS) (W : ℚ) (h : o.Radiative = false) :
    (CalculateDecayRate sf o g W).2 = (CalculateDecayRate sf o g (g.W0 - W + 1)).1 ∧
    (CalculateDecayRate sf o g W).1 = (CalculateDecayRate sf o g (g.W0 - W + 1)).2 := by
  have hW : g.W0 - (g.W0 - W + 1) + 1 = W := by ring
  simp only [CalculateDecayRate_eq_products, hW,
    neutrinoFactors_eq_electronFactors sf o g _ h, and_self]

/-- Witness of C19: the closed instance has the radiative correction disabled. -/
theorem CalculateDecayRate_mirror_witness :
    (CalculateDecayRate exampleSF exampleOptions exampleGenerator 1).2 =
      (CalculateDecayRate exampleSF exampleOptions exampleGenerator
        (exampleGenerator.W0 - 1 + 1)).1 ∧
    (CalculateDecayRate exampleSF exampleOptions exampleGenerator 1).1 =
      (CalculateDecayRate exampleSF exampleOptions exampleGenerator
        (exampleGenerator.W0 - 1 + 1)).2 :=
  CalculateDecayRate_mirror exampleSF exampleOptions exampleGenerator 1 rfl

/-- The grid from `b` to `e` in `n` equal steps has `n + 1` points. -/
theorem gridCount_steps (b e : ℚ) (n : ℤ) (hn : 1 ≤ n) (hbe : b < e) :
    gridCount e ((e - b) / (n : ℚ)) b = n.toNat + 1 := by
  unfold gridCount
  have hn0 : (0 : ℚ) < (n : ℚ) := by exact_mod_cast (by omega : 0 < n)
  have hd : (e - b) / ((e - b) / (n : ℚ)) = (n : ℚ) := by
    have hne : e - b ≠ 0 := by linarith
    field_simp
  rw [hd, Int.floor_intCast]
  omega

/-- C20: in the current variant, when `Spectrum.Steps` = n with n ≥ 1 exists and
`beginW` < `endW`, the step is (endW - beginW)/n whatever `Spectrum.StepSize` is, and
`CalculateSpectrum` produces exactly n + 1 samples, the first at `beginW` and the last at
`endW`; `endW` is `W0` when `Spectrum.End` is 0. -/
theorem CalculateSpectrum_steps (sf : SpectralFunctions SPS) (c : Constants) (o : Options)
    (g : Generator SPS) (n : ℤ) (hS : o.Steps = some n) (hn : 1 ≤ n)
    (hbe : beginW c o < endW c o g) :
    (∀ size : ℚ, stepW c { o with StepSize := size } g = (endW c o g - beginW c o) / (n : ℚ)) ∧
    (o.End = 0 → endW c o g = g.W0) ∧
    (∃ s : List (List ℚ),
      (∃ N, ∀ fuel, N ≤ fuel →
        (CalculateSpectrum sf c o g fuel).map (fun g1 => g1.spectrum) = some s) ∧
      (s.length : ℤ) = n + 1 ∧
      (wColumn s).head? = some (beginW c o) ∧
      (wColumn s).getLast? = some (endW c o g)) := by
  have hstep : stepW c o g = (endW c o g - beginW c o) / (n : ℚ) := by
    simp [stepW, hS]
  have hn0 : (0 : ℚ) < (n : ℚ) := by exact_mod_cast (by omega : 0 < n)
  have hpos : 0 < stepW c o g := by
    rw [hstep]
    exact div_pos (by linarith) hn0
  have hcount : gridCount (endW c o g) (stepW c o g) (beginW c o) = n.toNat + 1 := by
    rw [hstep]
    exact gridCount_steps _ _ n hn hbe
  refine ⟨?_, ?_, ?_⟩
  · intro size
    simp [stepW, hS, endW, beginW]
  · intro hE
    simp [endW, hE]
  · refine ⟨gridSamples (CalculateDecayRate sf o g) (stepW c o g) (beginW c o)
        (gridCount (endW c o g) (stepW c o g) (beginW c o)),
      ⟨gridCount (endW c o g) (stepW c o g) (beginW c o) + 1, ?_⟩, ?_, ?_, ?_⟩
    · intro fuel hf
      exact CalculateSpectrum_eq sf c o g hpos fuel (by omega)
    · rw [gridSamples_length, hcount]
      push_cast
      omega
    · rw [wColumn_gridSamples, hcount, List.range_succ_eq_map]
      simp
    · rw [wColumn_gridSamples, hcount, List.range_succ, List.map_append]
      simp only [List.map_cons, List.map_nil, List.getLast?_concat]
      have hc : ((n.toNat : ℕ) : ℚ) = (n : ℚ) := by
        have : ((n.toNat : ℕ) : ℤ) = n := Int.toNat_of_nonneg (by omega)
        exact_mod_cast this
      rw [hc, hstep]
      congr 1
      field_simp

/-- Witness of C20: the closed instance with `Spectrum.Steps` = 2 has `beginW` = 1,
`endW` = 3 and three samples. -/
theorem CalculateSpectrum_steps_witness :
    (beginW exampleConstants { exampleOptions with Steps := some 2 } <
      endW exampleConstants { exampleOptions with Steps := some 2 } exampleGenerator) ∧
    (∃ s : List (List ℚ),
      (∃ N, ∀ fuel, N ≤ fuel →
        (CalculateSpectrum exampleSF exampleConstants { exampleOptions with Steps := some 2 }
          exampleGenerator fuel).map (fun g1 => g1.spectrum) = some s) ∧
      (s.length : ℤ) = 2 + 1 ∧
      (wColumn s).head? =
        some (beginW exampleConstants { exampleOptions with Steps := some 2 }) ∧
      (wColumn s).getLast? =
        some (endW exampleConstants { exampleOptions with Steps := some 2 }
          exampleGenerator)) :=
  ⟨by norm_num [beginW, endW, exampleOptions, exampleConstants],
   (CalculateSpectrum_steps exampleSF exampleConstants { exampleOptions with Steps := some 2 }
      exampleGenerator 2 rfl (by norm_num)
      (by norm_num [beginW, endW, exampleOptions, exampleConstants])).2.2⟩

end BSG
